import Mathlib

/-!
Verification of the swing-trade scoring core.

This file gives a shallow embedding of the scoring subsystem:
technical_analysis.py (indicator pipeline and technical signal classifier),
fundamental_analysis.py (fundamental signal classifier) and
scoring_engine.py (combined scorer, recommendation bands, batch scoring),
and proves properties of the embedded definitions.

Numeric values are modelled as rationals.  The Python builtin
round(x, 2) is modelled as decimal rounding of the exact rational to two
places with ties going to the even hundredth (round-half-even), matching
the builtin on exactly representable ties.  A pandas column value is
modelled as Option (Option Rat): the outer layer records whether the
column exists at all (bracket access raises KeyError when it does not),
the inner layer records whether the value is NaN (comparisons with NaN
are false and pd.isna detects it).
-/

/-- Round-half-even to an integer, the tie rule of the Python round builtin. -/
def rhe (x : ℚ) : ℤ :=
  let f := ⌊x⌋
  let r := x - f
  if r < 1/2 then f
  else if r = 1/2 then (if f % 2 = 0 then f else f + 1)
  else f + 1

/-- Model of the Python round(x, 2). -/
def round2 (x : ℚ) : ℚ := (rhe (x * 100) : ℚ) / 100

/-! ### Configuration constants (config.py) -/

def RSI_OVERSOLD : ℚ := 30
def RSI_OVERBOUGHT : ℚ := 70
def VOLUME_SPIKE_THRESHOLD : ℚ := 3/2
def TECHNICAL_WEIGHT : ℚ := 6/10
def FUNDAMENTAL_WEIGHT : ℚ := 4/10
def MIN_BUY_SCORE : ℚ := 60
def MAX_SELL_SCORE : ℚ := 40

/-! ### Signals -/

/-- Direction of a signal: the 'signal' entry of the per-indicator dict. -/
inductive Dir where
  | bullish
  | neutral
  | bearish
deriving Repr, DecidableEq

/-- One classified sub-signal: direction and integer strength.
Auxiliary narrative entries of the Python dicts (value, interpretation,
pattern, position, volume_ratio, trend_strength) are not modelled since no
downstream computation reads them. -/
structure Sig where
  direction : Dir
  strength : ℤ
deriving Repr, DecidableEq

/-- The MACD sub-signal additionally carries the crossover marker. -/
structure MacdSig where
  direction : Dir
  strength : ℤ
  crossover : Option Dir
deriving Repr, DecidableEq

def MacdSig.toSig (m : MacdSig) : Sig := ⟨m.direction, m.strength⟩

/-! ### Rows of an indicator series

A row is one line of the indicator DataFrame.  Close and Volume always
exist.  For each derived column, the outer Option is column existence
(bracket access raises KeyError when none) and the inner Option is the
value (none meaning NaN). -/

structure Row where
  Close : ℚ
  Volume : ℚ
  rsi : Option (Option ℚ)
  macd : Option (Option ℚ)
  macd_signal : Option (Option ℚ)
  sma_20 : Option (Option ℚ)
  sma_50 : Option (Option ℚ)
  sma_200 : Option (Option ℚ)
  bb_upper : Option (Option ℚ)
  bb_middle : Option (Option ℚ)
  bb_lower : Option (Option ℚ)
  volume_sma_20 : Option (Option ℚ)
  stoch_k : Option (Option ℚ)
  stoch_d : Option (Option ℚ)
deriving Repr, DecidableEq

/-- Model of Series.get(key): None when the column is missing, else the
stored value; a NaN value and a missing column both come out as none. -/
def colGet (c : Option (Option ℚ)) : Option ℚ := c.getD none

/-- Comparison a less-or-equal b where either side may be NaN: any
comparison involving NaN is false in pandas. -/
def optLE (a b : Option ℚ) : Bool :=
  match a, b with
  | some x, some y => decide (x ≤ y)
  | _, _ => false

/-- Comparison a greater-or-equal b with NaN semantics. -/
def optGE (a b : Option ℚ) : Bool :=
  match a, b with
  | some x, some y => decide (y ≤ x)
  | _, _ => false

/-! ### Technical signal classifiers (TechnicalAnalyzer in technical_analysis.py) -/

/-- Model of TechnicalAnalyzer._analyze_rsi. -/
def analyze_rsi (rsi : Option ℚ) : Sig :=
  match rsi with
  | none => ⟨Dir.neutral, 0⟩
  | some r =>
    if r < RSI_OVERSOLD then ⟨Dir.bullish, 2⟩
    else if RSI_OVERBOUGHT < r then ⟨Dir.bearish, -2⟩
    else if r < 40 then ⟨Dir.bullish, 1⟩
    else if 60 < r then ⟨Dir.bearish, -1⟩
    else ⟨Dir.neutral, 0⟩

/-- Model of TechnicalAnalyzer._analyze_macd.  The previous row's values
are fetched with Series.get(key, default latest value); missing column
falls back to the latest value, a NaN value makes both crossover
comparisons false. -/
def analyze_macd (latest previous : Row) : MacdSig :=
  match colGet latest.macd, colGet latest.macd_signal with
  | some macd, some msig =>
    let prev_macd : Option ℚ :=
      match previous.macd with
      | none => some macd
      | some v => v
    let prev_sig : Option ℚ :=
      match previous.macd_signal with
      | none => some msig
      | some v => v
    if optLE prev_macd prev_sig && decide (msig < macd) then
      ⟨Dir.bullish, 2, some Dir.bullish⟩
    else if optGE prev_macd prev_sig && decide (macd < msig) then
      ⟨Dir.bearish, -2, some Dir.bearish⟩
    else if msig < macd then ⟨Dir.bullish, 1, none⟩
    else ⟨Dir.bearish, -1, none⟩
  | _, _ => ⟨Dir.neutral, 0, none⟩

/-- Model of TechnicalAnalyzer._analyze_moving_averages.  The three SMA
columns are read with bracket access, so a missing column is a KeyError. -/
def analyze_moving_averages (latest : Row) : Except String Sig :=
  match latest.sma_20 with
  | none => .error "KeyError: sma_20"
  | some v20 =>
    match latest.sma_50 with
    | none => .error "KeyError: sma_50"
    | some v50 =>
      match latest.sma_200 with
      | none => .error "KeyError: sma_200"
      | some v200 =>
        .ok (match v20, v50, v200 with
          | some s20, some s50, some s200 =>
            let price := latest.Close
            if s50 < s20 ∧ s200 < s50 ∧ s20 < price then ⟨Dir.bullish, 2⟩
            else if s20 < s50 ∧ s50 < s200 ∧ price < s20 then ⟨Dir.bearish, -2⟩
            else if s20 < price ∧ s50 < price ∧ s200 < price then ⟨Dir.bullish, 1⟩
            else if price < s20 ∧ price < s50 ∧ price < s200 then ⟨Dir.bearish, -1⟩
            else ⟨Dir.neutral, 0⟩
          | _, _, _ => ⟨Dir.neutral, 0⟩)

/-- Model of TechnicalAnalyzer._analyze_bollinger_bands.  Only the upper
and lower bands are NaN-checked; a NaN middle band makes the lower-half
comparison false, landing in the upper-half branch. -/
def analyze_bollinger_bands (latest : Row) : Sig :=
  let price := latest.Close
  match colGet latest.bb_upper, colGet latest.bb_lower with
  | some ub, some lb =>
    if price < lb then ⟨Dir.bullish, 2⟩
    else if ub < price then ⟨Dir.bearish, -2⟩
    else if (match colGet latest.bb_middle with
             | some mb => decide (price < mb)
             | none => false) then ⟨Dir.bullish, 1⟩
    else ⟨Dir.bearish, -1⟩
  | _, _ => ⟨Dir.neutral, 0⟩

/-- Model of TechnicalAnalyzer._analyze_volume. -/
def analyze_volume (latest : Row) : Sig :=
  match colGet latest.volume_sma_20 with
  | none => ⟨Dir.neutral, 0⟩
  | some vsma =>
    let ratio := latest.Volume / vsma
    if VOLUME_SPIKE_THRESHOLD < ratio then ⟨Dir.bullish, 1⟩
    else if ratio < 7/10 then ⟨Dir.bearish, -1⟩
    else ⟨Dir.neutral, 0⟩

/-- Model of TechnicalAnalyzer._analyze_trend: slope of the close over
the trailing window, as a percentage of the window's mean close. -/
def analyze_trend (df : List Row) (periods : ℕ) : Sig :=
  if df.length < periods then ⟨Dir.neutral, 0⟩
  else
    let closes := (df.drop (df.length - periods)).map Row.Close
    let slope := ((closes.getLast?.getD 0) - (closes.head?.getD 0)) / (periods : ℚ)
    let avg := closes.sum / (periods : ℚ)
    let trend_strength := slope / avg * 100
    if 1 < trend_strength then ⟨Dir.bullish, 2⟩
    else if 1/5 < trend_strength then ⟨Dir.bullish, 1⟩
    else if trend_strength < -1 then ⟨Dir.bearish, -2⟩
    else if trend_strength < -(1/5) then ⟨Dir.bearish, -1⟩
    else ⟨Dir.neutral, 0⟩

/-- Model of TechnicalAnalyzer._analyze_stochastic. -/
def analyze_stochastic (latest : Row) : Sig :=
  match colGet latest.stoch_k, colGet latest.stoch_d with
  | some k, some _ =>
    if k < 20 then ⟨Dir.bullish, 1⟩
    else if 80 < k then ⟨Dir.bearish, -1⟩
    else ⟨Dir.neutral, 0⟩
  | _, _ => ⟨Dir.neutral, 0⟩

/-! ### Technical score aggregation -/

/-- The signals dict built by generate_technical_signals: one optional
entry per sub-indicator (the stochastic entry is None when the stoch_k
column does not exist). -/
structure TechSignals where
  rsi_signal : Option Sig
  macd_signal : Option MacdSig
  ma_signal : Option Sig
  bb_signal : Option Sig
  volume_signal : Option Sig
  trend_signal : Option Sig
  stoch_signal : Option Sig
deriving Repr, DecidableEq

/-- The signal slots in the order of the weights dict of
_calculate_technical_score, paired with their fixed weights. -/
def TechSignals.slots (s : TechSignals) : List (Option Sig × ℚ) :=
  [(s.rsi_signal, 2), (s.macd_signal.map MacdSig.toSig, 5/2), (s.ma_signal, 2),
   (s.bb_signal, 3/2), (s.volume_signal, 1), (s.trend_signal, 2), (s.stoch_signal, 1)]

/-- Contribution of one slot to total_strength: strength times weight
when the signal is present. -/
def slotTS (p : Option Sig × ℚ) : ℚ :=
  match p.1 with
  | some g => (g.strength : ℚ) * p.2
  | none => 0

/-- Contribution of one slot to max_possible: 2 times weight when the
signal is present. -/
def slotMP (p : Option Sig × ℚ) : ℚ :=
  match p.1 with
  | some _ => 2 * p.2
  | none => 0

/-- Accumulated total_strength of the scoring loop. -/
def slotsTS (L : List (Option Sig × ℚ)) : ℚ := (L.map slotTS).sum

/-- Accumulated max_possible of the scoring loop. -/
def slotsMP (L : List (Option Sig × ℚ)) : ℚ := (L.map slotMP).sum

/-- Model of TechnicalAnalyzer._calculate_technical_score. -/
def calculate_technical_score (s : TechSignals) : ℚ :=
  let total_strength := slotsTS s.slots
  let max_possible := slotsMP s.slots
  let score :=
    if 0 < max_possible then (total_strength + max_possible) / (2 * max_possible) * 100
    else 50
  round2 score

/-- Result of generate_technical_signals (reasoning text and the
latest_indicators echo are not modelled). -/
structure TResult where
  score : ℚ
  signals : TechSignals
  current_price : ℚ
deriving Repr, DecidableEq

/-- Model of TechnicalAnalyzer.generate_technical_signals.  An empty frame
gives the explicit no-data error dict; a missing rsi or SMA column is a
KeyError raised by bracket access. -/
def generate_technical_signals (df : List Row) : Except String TResult :=
  match df.getLast? with
  | none => .error "No data available"
  | some latest =>
    let previous := if 1 < df.length then (df.get? (df.length - 2)).getD latest else latest
    match latest.rsi with
    | none => .error "KeyError: rsi"
    | some rsiVal =>
      match analyze_moving_averages latest with
      | .error e => .error e
      | .ok maSig =>
        let signals : TechSignals :=
          ⟨some (analyze_rsi rsiVal), some (analyze_macd latest previous), some maSig,
           some (analyze_bollinger_bands latest), some (analyze_volume latest),
           some (analyze_trend df 20),
           if latest.stoch_k.isSome then some (analyze_stochastic latest) else none⟩
        .ok ⟨calculate_technical_score signals, signals, latest.Close⟩

/-! ### Fundamental analysis (FundamentalAnalyzer in fundamental_analysis.py) -/

/-- The fundamental data dict restricted to the nine metric keys the
analyzer reads.  The outer Option is key presence, the inner Option is a
present-but-None value.  has_other_keys records whether the dict holds any
further entries (they only matter for the dict-emptiness test). -/
structure FData where
  pe_ratio : Option (Option ℚ)
  profit_margin : Option (Option ℚ)
  debt_to_equity : Option (Option ℚ)
  revenue_growth : Option (Option ℚ)
  return_on_equity : Option (Option ℚ)
  return_on_assets : Option (Option ℚ)
  earnings_growth : Option (Option ℚ)
  current_ratio : Option (Option ℚ)
  operating_margin : Option (Option ℚ)
  has_other_keys : Bool
deriving Repr, DecidableEq

def FData.isEmpty (d : FData) : Bool :=
  d.pe_ratio.isNone && d.profit_margin.isNone && d.debt_to_equity.isNone &&
  d.revenue_growth.isNone && d.return_on_equity.isNone && d.return_on_assets.isNone &&
  d.earnings_growth.isNone && d.current_ratio.isNone && d.operating_margin.isNone &&
  !d.has_other_keys

/-- Model of FundamentalAnalyzer._analyze_pe_ratio (benchmarks good 15,
acceptable 25). -/
def analyze_pe_ratio (v : Option ℚ) : Sig :=
  match v with
  | none => ⟨Dir.neutral, 0⟩
  | some pe =>
    if pe ≤ 0 then ⟨Dir.neutral, 0⟩
    else if pe < 15 then ⟨Dir.bullish, 2⟩
    else if pe < 25 then ⟨Dir.bullish, 1⟩
    else if pe < 35 then ⟨Dir.neutral, 0⟩
    else ⟨Dir.bearish, -1⟩

/-- Model of FundamentalAnalyzer._analyze_profit_margin (good 0.15,
acceptable 0.08). -/
def analyze_profit_margin (v : Option ℚ) : Sig :=
  match v with
  | none => ⟨Dir.neutral, 0⟩
  | some m =>
    if 3/20 ≤ m then ⟨Dir.bullish, 2⟩
    else if 2/25 ≤ m then ⟨Dir.bullish, 1⟩
    else if 3/100 ≤ m then ⟨Dir.neutral, 0⟩
    else ⟨Dir.bearish, -1⟩

/-- Model of FundamentalAnalyzer._analyze_debt_to_equity (good 0.5,
acceptable 1.5). -/
def analyze_debt_to_equity (v : Option ℚ) : Sig :=
  match v with
  | none => ⟨Dir.neutral, 0⟩
  | some d =>
    if d ≤ 1/2 then ⟨Dir.bullish, 2⟩
    else if d ≤ 3/2 then ⟨Dir.bullish, 1⟩
    else if d ≤ 5/2 then ⟨Dir.neutral, 0⟩
    else ⟨Dir.bearish, -1⟩

/-- Model of FundamentalAnalyzer._analyze_growth_metric; the good and
acceptable benchmarks are passed in (both growth metrics use 0.15/0.05). -/
def analyze_growth_metric (v : Option ℚ) (good acceptable : ℚ) : Sig :=
  match v with
  | none => ⟨Dir.neutral, 0⟩
  | some g =>
    if good ≤ g then ⟨Dir.bullish, 2⟩
    else if acceptable ≤ g then ⟨Dir.bullish, 1⟩
    else if 0 ≤ g then ⟨Dir.neutral, 0⟩
    else if -(1/20) ≤ g then ⟨Dir.bearish, -1⟩
    else ⟨Dir.bearish, -2⟩

/-- Model of FundamentalAnalyzer._analyze_profitability_metric. -/
def analyze_profitability_metric (v : Option ℚ) (good acceptable : ℚ) : Sig :=
  match v with
  | none => ⟨Dir.neutral, 0⟩
  | some x =>
    if good ≤ x then ⟨Dir.bullish, 2⟩
    else if acceptable ≤ x then ⟨Dir.bullish, 1⟩
    else if 0 ≤ x then ⟨Dir.neutral, 0⟩
    else ⟨Dir.bearish, -1⟩

/-- Model of FundamentalAnalyzer._analyze_current_ratio (good 2.0,
acceptable 1.0). -/
def analyze_current_ratio (v : Option ℚ) : Sig :=
  match v with
  | none => ⟨Dir.neutral, 0⟩
  | some r =>
    if 2 ≤ r then ⟨Dir.bullish, 2⟩
    else if 1 ≤ r then ⟨Dir.bullish, 1⟩
    else if 4/5 ≤ r then ⟨Dir.neutral, 0⟩
    else ⟨Dir.bearish, -1⟩

/-- The fundamental signals dict: one optional entry per metric key. -/
structure FundSignals where
  pe_ratio : Option Sig
  profit_margin : Option Sig
  debt_to_equity : Option Sig
  revenue_growth : Option Sig
  return_on_equity : Option Sig
  return_on_assets : Option Sig
  earnings_growth : Option Sig
  current_ratio : Option Sig
  operating_margin : Option Sig
deriving Repr, DecidableEq

def FundSignals.isEmpty (s : FundSignals) : Bool :=
  s.pe_ratio.isNone && s.profit_margin.isNone && s.debt_to_equity.isNone &&
  s.revenue_growth.isNone && s.return_on_equity.isNone && s.return_on_assets.isNone &&
  s.earnings_growth.isNone && s.current_ratio.isNone && s.operating_margin.isNone

/-- The fundamental signal slots with the fixed per-metric weights from
the benchmarks table. -/
def FundSignals.slots (s : FundSignals) : List (Option Sig × ℚ) :=
  [(s.pe_ratio, 2), (s.profit_margin, 2), (s.debt_to_equity, 3/2),
   (s.revenue_growth, 2), (s.return_on_equity, 2), (s.return_on_assets, 3/2),
   (s.earnings_growth, 2), (s.current_ratio, 1), (s.operating_margin, 3/2)]

/-- Model of FundamentalAnalyzer._calculate_fundamental_score. -/
def calculate_fundamental_score (s : FundSignals) : ℚ :=
  if s.isEmpty then 50
  else
    let total_weighted_strength := slotsTS s.slots
    let total_weight := slotsMP s.slots
    round2 (if 0 < total_weight then
              (total_weighted_strength + total_weight) / (2 * total_weight) * 100
            else 50)

/-- Result of analyze_fundamentals (reasoning text and the metrics echo
are not modelled). -/
structure FResult where
  score : ℚ
  signals : FundSignals
deriving Repr, DecidableEq

def emptyFundSignals : FundSignals :=
  ⟨none, none, none, none, none, none, none, none, none⟩

/-- Model of FundamentalAnalyzer.analyze_fundamentals. -/
def analyze_fundamentals (d : FData) : FResult :=
  if d.isEmpty then ⟨50, emptyFundSignals⟩
  else
    let signals : FundSignals :=
      ⟨d.pe_ratio.map analyze_pe_ratio,
       d.profit_margin.map analyze_profit_margin,
       d.debt_to_equity.map analyze_debt_to_equity,
       d.revenue_growth.map (fun g => analyze_growth_metric g (3/20) (1/20)),
       d.return_on_equity.map (fun v => analyze_profitability_metric v (3/20) (2/25)),
       d.return_on_assets.map (fun v => analyze_profitability_metric v (2/25) (1/25)),
       d.earnings_growth.map (fun g => analyze_growth_metric g (3/20) (1/20)),
       d.current_ratio.map analyze_current_ratio,
       d.operating_margin.map (fun v => analyze_profitability_metric v (3/20) (2/25))⟩
    ⟨calculate_fundamental_score signals, signals⟩

/-! ### Combined scorer (ScoringEngine in scoring_engine.py) -/

/-- Model of ScoringEngine._generate_recommendation. -/
def generate_recommendation (score : ℚ) : String :=
  if 80 ≤ score then "STRONG BUY"
  else if 65 ≤ score then "BUY"
  else if 45 ≤ score then "HOLD"
  else if 30 ≤ score then "SELL"
  else "STRONG SELL"

/-- The per-symbol scoring record returned by score_stock and
_create_error_result (date, reasoning, price and signal payloads are not
modelled beyond what claims read). -/
structure StockScore where
  symbol : String
  overall_score : ℚ
  technical_score : ℚ
  fundamental_score : ℚ
  recommendation : String
  error : Option String
deriving Repr, DecidableEq

/-- Score combination step of ScoringEngine.score_stock: the blended
overall score is rounded to two places for the stored record while the
recommendation is taken from the unrounded value. -/
def score_stock_core (symbol : String) (technical_score fundamental_score : ℚ) :
    StockScore :=
  let overall_score := technical_score * TECHNICAL_WEIGHT +
    fundamental_score * FUNDAMENTAL_WEIGHT
  ⟨symbol, round2 overall_score, technical_score, fundamental_score,
   generate_recommendation overall_score, none⟩

/-- Model of ScoringEngine._create_error_result. -/
def create_error_result (symbol error_message : String) : StockScore :=
  ⟨symbol, 50, 50, 50, "HOLD", some error_message⟩

/-- Outcome of scoring one symbol in the batch loop: the result of
score_stock, or the error placeholder when score_stock raised. -/
def resultFor (score_stock : String → Except String StockScore) (symbol : String) :
    StockScore :=
  match score_stock symbol with
  | .ok r => r
  | .error e => create_error_result symbol e

/-- Insertion step of the descending stable sort on overall_score. -/
def insertDesc (r : StockScore) : List StockScore → List StockScore
  | [] => [r]
  | x :: xs =>
    if x.overall_score < r.overall_score then r :: x :: xs
    else x :: insertDesc r xs

/-- Descending sort by overall_score, modelling list.sort(key, reverse=True). -/
def sortDesc : List StockScore → List StockScore
  | [] => []
  | x :: xs => insertDesc x (sortDesc xs)

/-- Model of ScoringEngine.score_portfolio: score every symbol, replacing
a raising score_stock call by the error placeholder, then sort the
results descending by overall score.  score_stock itself (which performs
network and database work) is a parameter. -/
def score_portfolio (score_stock : String → Except String StockScore)
    (symbols : List String) : List StockScore :=
  sortDesc (symbols.map (resultFor score_stock))

/-! ### Indicator pipeline (calculate_all_indicators in technical_analysis.py)

The pandas_ta indicator functions are external collaborators; they are
modelled as parameters that may raise (Except.error models a thrown
exception, Except.ok none models a None return where the code checks for
one).  The DataFrame is the OHLCV row list plus one optional column per
derived indicator. -/

structure Bar where
  Open : ℚ
  High : ℚ
  Low : ℚ
  Close : ℚ
  Volume : ℚ
deriving Repr, DecidableEq

/-- A derived column: one optional value per row. -/
def IndCol : Type := List (Option ℚ)

structure DF where
  rows : List Bar
  rsi : Option IndCol
  macd : Option IndCol
  macd_signal : Option IndCol
  macd_histogram : Option IndCol
  sma_20 : Option IndCol
  sma_50 : Option IndCol
  sma_200 : Option IndCol
  bb_upper : Option IndCol
  bb_middle : Option IndCol
  bb_lower : Option IndCol
  volume_sma_20 : Option IndCol
  stoch_k : Option IndCol
  stoch_d : Option IndCol
  atr : Option IndCol
  obv : Option IndCol

/-- The pandas_ta functions used by the pipeline, abstracted.  Each may
raise; macd, bbands and stoch may also return None, which the pipeline
checks before assigning columns. -/
structure TAlib where
  rsi : List ℚ → ℕ → Except String IndCol
  macd : List ℚ → ℕ → ℕ → ℕ → Except String (Option (IndCol × IndCol × IndCol))
  sma : List ℚ → ℕ → Except String IndCol
  bbands : List ℚ → ℕ → ℚ → Except String (Option (IndCol × IndCol × IndCol))
  stoch : List ℚ → List ℚ → List ℚ → Except String (Option (IndCol × IndCol))
  atr : List ℚ → List ℚ → List ℚ → ℕ → Except String IndCol
  obv : List ℚ → List ℚ → Except String IndCol

def calc_obv (ta : TAlib) (df : DF) (close vol : List ℚ) : DF :=
  match ta.obv close vol with
  | .error _ => df
  | .ok c => { df with obv := some c }

def calc_atr (ta : TAlib) (df : DF) (close high low vol : List ℚ) : DF :=
  match ta.atr high low close 14 with
  | .error _ => df
  | .ok c => calc_obv ta { df with atr := some c } close vol

def calc_stoch (ta : TAlib) (df : DF) (close high low vol : List ℚ) : DF :=
  match ta.stoch high low close with
  | .error _ => df
  | .ok none => calc_atr ta df close high low vol
  | .ok (some (k, d)) =>
    calc_atr ta { df with stoch_k := some k, stoch_d := some d } close high low vol

def calc_volume_sma (ta : TAlib) (df : DF) (close high low vol : List ℚ) : DF :=
  match ta.sma vol 20 with
  | .error _ => df
  | .ok c => calc_stoch ta { df with volume_sma_20 := some c } close high low vol

def calc_bb (ta : TAlib) (df : DF) (close high low vol : List ℚ) : DF :=
  match ta.bbands close 20 2 with
  | .error _ => df
  | .ok none => calc_volume_sma ta df close high low vol
  | .ok (some (u, m, l)) =>
    calc_volume_sma ta { df with bb_upper := some u, bb_middle := some m, bb_lower := some l }
      close high low vol

def calc_sma_200 (ta : TAlib) (df : DF) (close high low vol : List ℚ) : DF :=
  match ta.sma close 200 with
  | .error _ => df
  | .ok c => calc_bb ta { df with sma_200 := some c } close high low vol

def calc_sma_50 (ta : TAlib) (df : DF) (close high low vol : List ℚ) : DF :=
  match ta.sma close 50 with
  | .error _ => df
  | .ok c => calc_sma_200 ta { df with sma_50 := some c } close high low vol

def calc_sma_20 (ta : TAlib) (df : DF) (close high low vol : List ℚ) : DF :=
  match ta.sma close 20 with
  | .error _ => df
  | .ok c => calc_sma_50 ta { df with sma_20 := some c } close high low vol

def calc_macd (ta : TAlib) (df : DF) (close high low vol : List ℚ) : DF :=
  match ta.macd close 12 26 9 with
  | .error _ => df
  | .ok none => calc_sma_20 ta df close high low vol
  | .ok (some (m, s, h)) =>
    calc_sma_20 ta { df with macd := some m, macd_signal := some s, macd_histogram := some h }
      close high low vol

def calc_rsi (ta : TAlib) (df : DF) (close high low vol : List ℚ) : DF :=
  match ta.rsi close 14 with
  | .error _ => df
  | .ok c => calc_macd ta { df with rsi := some c } close high low vol

/-- Model of TechnicalAnalyzer.calculate_all_indicators.  The body is one
try block: the first indicator call that raises ends the computation and
the frame accumulated so far is returned; an empty frame is returned
unchanged at once. -/
def calculate_all_indicators (ta : TAlib) (df : DF) : DF :=
  if df.rows.isEmpty then df
  else
    calc_rsi ta df (df.rows.map Bar.Close) (df.rows.map Bar.High)
      (df.rows.map Bar.Low) (df.rows.map Bar.Volume)

/-! ### Spec-side definitions for the scoring formula

These follow the wording of the specification (section 4.2) rather than
the code, for comparison with the embedded scoring loop. -/

/-- Following the spec: strength times weight of one contributing
sub-signal. -/
def specSlotSW (p : Option Sig × ℚ) : ℚ :=
  match p.1 with
  | some g => (g.strength : ℚ) * p.2
  | none => 0

/-- Following the spec: 2 times weight of one contributing sub-signal. -/
def specSlot2W (p : Option Sig × ℚ) : ℚ :=
  match p.1 with
  | some _ => 2 * p.2
  | none => 0

/-- Following the spec: the weight of one contributing sub-signal. -/
def specSlotW (p : Option Sig × ℚ) : ℚ :=
  match p.1 with
  | some _ => p.2
  | none => 0

/-- Following the spec: the sum of strength times weight over the
contributing sub-signals. -/
def specSumStrengthWeight (L : List (Option Sig × ℚ)) : ℚ := (L.map specSlotSW).sum

/-- Following the spec: the sum of 2 times weight over the contributing
sub-signals. -/
def specSumTwiceWeight (L : List (Option Sig × ℚ)) : ℚ := (L.map specSlot2W).sum

/-- Following the spec: the sum of the weights of the contributing
sub-signals. -/
def specSumWeight (L : List (Option Sig × ℚ)) : ℚ := (L.map specSlotW).sum

/-- The score formula exactly as the spec sentence states it:
((sum of strength times weight + sum of 2 times weight) divided by
(2 times the sum of weights)) times 100. -/
def spec_score_formula (s : TechSignals) : ℚ :=
  (specSumStrengthWeight s.slots + specSumTwiceWeight s.slots) /
    (2 * specSumWeight s.slots) * 100

/-- The unrounded value normalized by the scoring loop before round(score, 2). -/
def pre_score (s : TechSignals) : ℚ :=
  (slotsTS s.slots + slotsMP s.slots) / (2 * slotsMP s.slots) * 100

/-- Descending order on overall_score, the postcondition of the batch sort. -/
def SortedDesc (l : List StockScore) : Prop :=
  l.Pairwise (fun a b => b.overall_score ≤ a.overall_score)

/-- Boundedness of all present strengths of a slot list. -/
def slotsBounded (L : List (Option Sig × ℚ)) : Prop :=
  ∀ p ∈ L, ∀ g, p.1 = some g → -2 ≤ g.strength ∧ g.strength ≤ 2

/-! ### Concrete evaluation inputs -/

/-- A one-row series whose derived columns all exist: the RSI value is a
neutral 50, every other derived value is NaN. -/
def rowW : Row :=
  ⟨100, 1000, some (some 50), some none, some none, some none, some none, some none,
   some none, some none, some none, some none, some none, some none⟩

/-- The signals produced for rowW: every sub-signal present and neutral. -/
def sigW : TechSignals :=
  ⟨some ⟨Dir.neutral, 0⟩, some ⟨Dir.neutral, 0, none⟩, some ⟨Dir.neutral, 0⟩,
   some ⟨Dir.neutral, 0⟩, some ⟨Dir.neutral, 0⟩, some ⟨Dir.neutral, 0⟩,
   some ⟨Dir.neutral, 0⟩⟩

def resW : TResult := ⟨50, sigW, 100⟩

/-- Signal set for the C1 counterexample: RSI strength 2 and Bollinger
strength 1 contribute, nothing else. -/
def s1ex : TechSignals :=
  ⟨some ⟨Dir.bullish, 2⟩, none, none, some ⟨Dir.bullish, 1⟩, none, none, none⟩

/-- Signal set with every contributing strength equal to -2. -/
def s1neg : TechSignals :=
  ⟨some ⟨Dir.bearish, -2⟩, some ⟨Dir.bearish, -2, some Dir.bearish⟩, none, none,
   none, none, none⟩

/-- Signal set with every contributing strength equal to 2. -/
def s1pos : TechSignals :=
  ⟨some ⟨Dir.bullish, 2⟩, none, none, none, none, none, none⟩

/-- Fundamental data dict with no keys at all. -/
def fdEmpty : FData := ⟨none, none, none, none, none, none, none, none, none, false⟩

/-- Fundamental data for the C2 witness. -/
def fdW : FData :=
  ⟨some (some 12), some (some (1/4)), none, some (some (-1/10)), none, none, none,
   none, none, false⟩

/-- One-row series for the C5 counterexample: the MACD columns hold
values, every other derived column exists but is NaN, and the stochastic
columns do not exist. -/
def row5c : Row :=
  ⟨100, 1000, some none, some (some 1), some (some 0), some none, some none,
   some none, some none, some none, some none, some none, none, none⟩

/-- The signals produced for row5c. -/
def sig5c : TechSignals :=
  ⟨some ⟨Dir.neutral, 0⟩, some ⟨Dir.bullish, 1, none⟩, some ⟨Dir.neutral, 0⟩,
   some ⟨Dir.neutral, 0⟩, some ⟨Dir.neutral, 0⟩, some ⟨Dir.neutral, 0⟩, none⟩

def res5c : TResult := ⟨1392/25, sig5c, 100⟩

/-- The MACD sub-signal of row5c taken alone, as the spec's exclusion
reading would score the series. -/
def sOnlyMacd : TechSignals :=
  ⟨none, some ⟨Dir.bullish, 1, none⟩, none, none, none, none, none⟩

/-- Signal set for the C5 witness: a neutral RSI entry next to a strong
MACD entry. -/
def s5w : TechSignals :=
  ⟨some ⟨Dir.neutral, 0⟩, some ⟨Dir.bullish, 2, none⟩, none, none, none, none, none⟩

/-- One-row series for the C5 witness whose stochastic columns do not exist. -/
def row5b : Row :=
  ⟨100, 1000, some (some 50), some none, some none, some none, some none, some none,
   some none, some none, some none, some none, none, none⟩

/-- The signals produced for row5b: six neutral entries, stochastic excluded. -/
def sig5b : TechSignals :=
  ⟨some ⟨Dir.neutral, 0⟩, some ⟨Dir.neutral, 0, none⟩, some ⟨Dir.neutral, 0⟩,
   some ⟨Dir.neutral, 0⟩, some ⟨Dir.neutral, 0⟩, some ⟨Dir.neutral, 0⟩, none⟩

def res5b : TResult := ⟨50, sig5b, 100⟩

/-- Latest row of the C6 witness: MACD 0.2 above signal 0.1. -/
def latest6 : Row :=
  ⟨0, 0, none, some (some (2/10)), some (some (1/10)), none, none, none, none,
   none, none, none, none, none⟩

/-- Previous row of the C6 witness: MACD -0.5 at or below signal -0.3. -/
def previous6 : Row :=
  ⟨0, 0, none, some (some (-(5/10))), some (some (-(3/10))), none, none, none, none,
   none, none, none, none, none⟩

/-- Batch scoring stub for the C7 witness: the middle symbol raises. -/
def f7 (sym : String) : Except String StockScore :=
  if sym = "BBB" then .error "boom"
  else if sym = "AAA" then .ok ⟨"AAA", 70, 70, 70, "BUY", none⟩
  else .ok ⟨"CCC", 62, 70, 50, "HOLD", none⟩

def syms7 : List String := ["AAA", "BBB", "CCC"]

def bar0 : Bar := ⟨1, 1, 1, 1, 1⟩

/-- One-bar frame with no derived columns. -/
def df0 : DF :=
  ⟨[bar0], none, none, none, none, none, none, none, none, none, none, none,
   none, none, none, none⟩

/-- Indicator library stub for C8: the RSI call raises, every other
indicator computes fine. -/
def ta0 : TAlib :=
  ⟨fun _ _ => .error "rsi boom",
   fun _ _ _ _ => .ok (some ([some 1], [some 1], [some 1])),
   fun _ _ => .ok [some 1],
   fun _ _ _ => .ok (some ([some 1], [some 1], [some 1])),
   fun _ _ _ => .ok (some ([some 1], [some 1])),
   fun _ _ _ _ => .ok [some 1],
   fun _ _ => .ok [some 1]⟩

/-- A row whose derived columns were all stripped from the frame. -/
def strippedRow : Row :=
  ⟨100, 1000, none, none, none, none, none, none, none, none, none, none, none, none⟩

/-- One-row series for the C10 witness, with MACD values present. -/
def rowC10 : Row :=
  ⟨100, 1000, some (some 50), some (some 1), some (some 2), some none, some none,
   some none, some none, some none, some none, some none, some none, some none⟩

/-- The signals produced for rowC10. -/
def sigC10 : TechSignals :=
  ⟨some ⟨Dir.neutral, 0⟩, some ⟨Dir.bearish, -1, none⟩, some ⟨Dir.neutral, 0⟩,
   some ⟨Dir.neutral, 0⟩, some ⟨Dir.neutral, 0⟩, some ⟨Dir.neutral, 0⟩,
   some ⟨Dir.neutral, 0⟩⟩

def resC10 : TResult := ⟨4479/100, sigC10, 100⟩

/-! ### Rounding lemmas -/

lemma rhe_eq_low (x : ℚ) (n : ℤ) (h1 : (n : ℚ) ≤ x) (h2 : x < (n : ℚ) + 1/2) :
    rhe x = n := by
  have hf : ⌊x⌋ = n := by
    apply Int.floor_eq_iff.mpr
    exact ⟨h1, by linarith⟩
  simp only [rhe, hf]
  rw [if_pos (by linarith)]

lemma rhe_eq_high (x : ℚ) (n : ℤ) (h1 : (n : ℚ) + 1/2 < x) (h2 : x < (n : ℚ) + 1) :
    rhe x = n + 1 := by
  have hf : ⌊x⌋ = n := by
    apply Int.floor_eq_iff.mpr
    exact ⟨by linarith, by linarith⟩
  simp only [rhe, hf]
  rw [if_neg (by linarith), if_neg (by intro h; linarith)]

lemma round2_low (x : ℚ) (n : ℤ) (h1 : (n : ℚ) ≤ x * 100) (h2 : x * 100 < (n : ℚ) + 1/2) :
    round2 x = (n : ℚ) / 100 := by
  rw [round2, rhe_eq_low (x * 100) n h1 h2]

lemma round2_high (x : ℚ) (n : ℤ) (h1 : (n : ℚ) + 1/2 < x * 100) (h2 : x * 100 < (n : ℚ) + 1) :
    round2 x = ((n : ℚ) + 1) / 100 := by
  rw [round2, rhe_eq_high (x * 100) n h1 h2]
  push_cast
  ring

lemma rhe_nonneg (x : ℚ) (h : 0 ≤ x) : 0 ≤ rhe x := by
  have hf : (0 : ℤ) ≤ ⌊x⌋ := Int.le_floor.mpr (by exact_mod_cast h)
  simp only [rhe]
  split_ifs <;> omega

lemma rhe_le (x : ℚ) (n : ℤ) (h : x ≤ (n : ℚ)) : rhe x ≤ n := by
  have hf : ⌊x⌋ ≤ n := by
    have := Int.floor_le_floor h
    simpa using this
  have hfx : (⌊x⌋ : ℚ) ≤ x := Int.floor_le x
  simp only [rhe]
  split_ifs with h1 h2 h3
  · exact hf
  · exact hf
  · -- tie case with odd floor: x = floor + 1/2 strictly below n + 1/2, so floor < n
    have hlt : (⌊x⌋ : ℚ) < (n : ℚ) := by
      have : x - ⌊x⌋ = 1/2 := h2
      have : (⌊x⌋ : ℚ) = x - 1/2 := by linarith
      by_contra hc
      push_neg at hc
      have : (n : ℚ) ≤ x - 1/2 := by linarith
      linarith
    have : ⌊x⌋ < n := by exact_mod_cast hlt
    omega
  · -- fractional part above 1/2: floor + 1/2 < x ≤ n so floor < n
    have hgt : 1/2 < x - ⌊x⌋ := by
      rcases lt_trichotomy (x - (⌊x⌋ : ℚ)) (1/2) with hlt | heq | hgt
      · exact absurd hlt h1
      · exact absurd heq h2
      · exact hgt
    have hlt : (⌊x⌋ : ℚ) < (n : ℚ) := by linarith
    have : ⌊x⌋ < n := by exact_mod_cast hlt
    omega

lemma round2_nonneg (x : ℚ) (h : 0 ≤ x) : 0 ≤ round2 x := by
  rw [round2]
  have : (0 : ℤ) ≤ rhe (x * 100) := rhe_nonneg _ (by linarith)
  positivity

lemma round2_le_100 (x : ℚ) (h : x ≤ 100) : round2 x ≤ 100 := by
  rw [round2]
  have h1 : rhe (x * 100) ≤ 10000 := rhe_le _ 10000 (by push_cast; linarith)
  have h2 : ((rhe (x * 100) : ℚ)) ≤ 10000 := by exact_mod_cast h1
  linarith

lemma round2_int (x : ℚ) (n : ℤ) (h : x * 100 = (n : ℚ)) : round2 x = (n : ℚ) / 100 :=
  round2_low x n (le_of_eq h.symm) (by rw [h]; linarith)

lemma round2_fifty : round2 50 = 50 := by
  rw [round2_int 50 5000 (by norm_num)]
  norm_num

lemma round2_zero : round2 0 = 0 := by
  rw [round2_int 0 0 (by norm_num)]
  norm_num

lemma round2_hundred : round2 100 = 100 := by
  rw [round2_int 100 10000 (by norm_num)]
  norm_num

lemma round2_sixty_two : round2 62 = 62 := by
  rw [round2_int 62 6200 (by norm_num)]
  norm_num

lemma round2_seventy_five : round2 75 = 75 := by
  rw [round2_int 75 7500 (by norm_num)]
  norm_num

lemma round2_c1 : round2 (625/7) = 8929/100 := by
  rw [round2_high (625/7) 8928 (by norm_num) (by norm_num)]
  norm_num

lemma round2_c5 : round2 (2450/44) = 1392/25 := by
  rw [round2_low (2450/44) 5568 (by norm_num) (by norm_num)]
  norm_num

lemma round2_c10 : round2 (2150/48) = 4479/100 := by
  rw [round2_low (2150/48) 4479 (by norm_num) (by norm_num)]
  norm_num

/-! ### Strength bounds of the individual classifiers -/

lemma analyze_rsi_bound (v : Option ℚ) :
    -2 ≤ (analyze_rsi v).strength ∧ (analyze_rsi v).strength ≤ 2 := by
  cases v with
  | none => simp [analyze_rsi]
  | some r =>
    simp only [analyze_rsi]
    split_ifs <;> simp

lemma analyze_macd_bound (latest previous : Row) :
    -2 ≤ (analyze_macd latest previous).strength ∧
      (analyze_macd latest previous).strength ≤ 2 := by
  rw [analyze_macd]
  rcases colGet latest.macd with _ | m <;> rcases colGet latest.macd_signal with _ | s <;>
    simp only []
  · simp
  · simp
  · simp
  · split_ifs <;> simp

lemma analyze_moving_averages_bound (latest : Row) (g : Sig)
    (h : analyze_moving_averages latest = .ok g) :
    -2 ≤ g.strength ∧ g.strength ≤ 2 := by
  rw [analyze_moving_averages] at h
  split at h
  · exact absurd h (by simp)
  · split at h
    · exact absurd h (by simp)
    · split at h
      · exact absurd h (by simp)
      · simp only [Except.ok.injEq] at h
        subst h
        split
        · split_ifs <;> simp
        · simp

lemma analyze_bollinger_bands_bound (latest : Row) :
    -2 ≤ (analyze_bollinger_bands latest).strength ∧
      (analyze_bollinger_bands latest).strength ≤ 2 := by
  rw [analyze_bollinger_bands]
  rcases colGet latest.bb_upper with _ | ub <;> rcases colGet latest.bb_lower with _ | lb <;>
    simp only []
  · simp
  · simp
  · simp
  · split_ifs <;> simp

lemma analyze_volume_bound (latest : Row) :
    -2 ≤ (analyze_volume latest).strength ∧ (analyze_volume latest).strength ≤ 2 := by
  rw [analyze_volume]
  rcases colGet latest.volume_sma_20 with _ | v <;> simp only []
  · simp
  · split_ifs <;> simp

lemma analyze_trend_bound (df : List Row) (periods : ℕ) :
    -2 ≤ (analyze_trend df periods).strength ∧ (analyze_trend df periods).strength ≤ 2 := by
  simp only [analyze_trend]
  split_ifs <;> simp

lemma analyze_stochastic_bound (latest : Row) :
    -2 ≤ (analyze_stochastic latest).strength ∧
      (analyze_stochastic latest).strength ≤ 2 := by
  rw [analyze_stochastic]
  rcases colGet latest.stoch_k with _ | k <;> rcases colGet latest.stoch_d with _ | d <;>
    simp only []
  · simp
  · simp
  · simp
  · split_ifs <;> simp

lemma analyze_pe_ratio_bound (v : Option ℚ) :
    -2 ≤ (analyze_pe_ratio v).strength ∧ (analyze_pe_ratio v).strength ≤ 2 := by
  cases v with
  | none => simp [analyze_pe_ratio]
  | some r =>
    simp only [analyze_pe_ratio]
    split_ifs <;> simp

lemma analyze_profit_margin_bound (v : Option ℚ) :
    -2 ≤ (analyze_profit_margin v).strength ∧ (analyze_profit_margin v).strength ≤ 2 := by
  cases v with
  | none => simp [analyze_profit_margin]
  | some r =>
    simp only [analyze_profit_margin]
    split_ifs <;> simp

lemma analyze_debt_to_equity_bound (v : Option ℚ) :
    -2 ≤ (analyze_debt_to_equity v).strength ∧ (analyze_debt_to_equity v).strength ≤ 2 := by
  cases v with
  | none => simp [analyze_debt_to_equity]
  | some r =>
    simp only [analyze_debt_to_equity]
    split_ifs <;> simp

lemma analyze_growth_metric_bound (v : Option ℚ) (good acceptable : ℚ) :
    -2 ≤ (analyze_growth_metric v good acceptable).strength ∧
      (analyze_growth_metric v good acceptable).strength ≤ 2 := by
  cases v with
  | none => simp [analyze_growth_metric]
  | some r =>
    simp only [analyze_growth_metric]
    split_ifs <;> simp

lemma analyze_profitability_metric_bound (v : Option ℚ) (good acceptable : ℚ) :
    -2 ≤ (analyze_profitability_metric v good acceptable).strength ∧
      (analyze_profitability_metric v good acceptable).strength ≤ 2 := by
  cases v with
  | none => simp [analyze_profitability_metric]
  | some r =>
    simp only [analyze_profitability_metric]
    split_ifs <;> simp

lemma analyze_current_ratio_bound (v : Option ℚ) :
    -2 ≤ (analyze_current_ratio v).strength ∧ (analyze_current_ratio v).strength ≤ 2 := by
  cases v with
  | none => simp [analyze_current_ratio]
  | some r =>
    simp only [analyze_current_ratio]
    split_ifs <;> simp

/-! ### Aggregation lemmas -/

lemma slotsTS_nil : slotsTS [] = 0 := rfl

lemma slotsMP_nil : slotsMP [] = 0 := rfl

lemma slotsTS_cons (p : Option Sig × ℚ) (L : List (Option Sig × ℚ)) :
    slotsTS (p :: L) = slotTS p + slotsTS L := by
  simp [slotsTS]

lemma slotsMP_cons (p : Option Sig × ℚ) (L : List (Option Sig × ℚ)) :
    slotsMP (p :: L) = slotMP p + slotsMP L := by
  simp [slotsMP]

lemma slotMP_nonneg (p : Option Sig × ℚ) (h : 0 ≤ p.2) : 0 ≤ slotMP p := by
  cases hp : p.1 <;> simp only [slotMP, hp] <;> linarith

lemma slotTS_bound (p : Option Sig × ℚ) (h : 0 ≤ p.2)
    (hb : ∀ g, p.1 = some g → -2 ≤ g.strength ∧ g.strength ≤ 2) :
    -(slotMP p) ≤ slotTS p ∧ slotTS p ≤ slotMP p := by
  cases hp : p.1 with
  | none => simp [slotTS, slotMP, hp]
  | some g =>
    have hg := hb g hp
    have hb1 : (-2 : ℚ) ≤ (g.strength : ℚ) := by exact_mod_cast hg.1
    have hb2 : ((g.strength : ℚ)) ≤ 2 := by exact_mod_cast hg.2
    simp only [slotTS, slotMP, hp]
    constructor <;> nlinarith

lemma slots_bound (L : List (Option Sig × ℚ))
    (hw : ∀ p ∈ L, 0 ≤ p.2) (hs : slotsBounded L) :
    0 ≤ slotsMP L ∧ -(slotsMP L) ≤ slotsTS L ∧ slotsTS L ≤ slotsMP L := by
  induction L with
  | nil => simp [slotsTS_nil, slotsMP_nil]
  | cons p L ih =>
    obtain ⟨h0, h1, h2⟩ := ih (fun q hq => hw q (List.mem_cons_of_mem _ hq))
      (fun q hq => hs q (List.mem_cons_of_mem _ hq))
    have hwp : 0 ≤ p.2 := hw p (List.mem_cons_self _ _)
    obtain ⟨hm1, hm2⟩ := slotTS_bound p hwp (hs p (List.mem_cons_self _ _))
    have hmp := slotMP_nonneg p hwp
    rw [slotsTS_cons, slotsMP_cons]
    refine ⟨by linarith, by linarith, by linarith⟩

lemma slotsTS_all_neg2 (L : List (Option Sig × ℚ))
    (h : ∀ p ∈ L, ∀ g, p.1 = some g → g.strength = -2) :
    slotsTS L = -(slotsMP L) := by
  induction L with
  | nil => simp [slotsTS_nil, slotsMP_nil]
  | cons p L ih =>
    have hrest := ih (fun q hq => h q (List.mem_cons_of_mem _ hq))
    have hhead : slotTS p = -(slotMP p) := by
      cases hp : p.1 with
      | none => simp [slotTS, slotMP, hp]
      | some g =>
        have hg := h p (List.mem_cons_self _ _) g hp
        simp only [slotTS, slotMP, hp, hg]
        push_cast
        ring
    rw [slotsTS_cons, slotsMP_cons, hrest, hhead]
    ring

lemma slotsTS_all_pos2 (L : List (Option Sig × ℚ))
    (h : ∀ p ∈ L, ∀ g, p.1 = some g → g.strength = 2) :
    slotsTS L = slotsMP L := by
  induction L with
  | nil => simp [slotsTS_nil, slotsMP_nil]
  | cons p L ih =>
    have hrest := ih (fun q hq => h q (List.mem_cons_of_mem _ hq))
    have hhead : slotTS p = slotMP p := by
      cases hp : p.1 with
      | none => simp [slotTS, slotMP, hp]
      | some g =>
        have hg := h p (List.mem_cons_self _ _) g hp
        simp only [slotTS, slotMP, hp, hg]
        push_cast
        ring
    rw [slotsTS_cons, slotsMP_cons, hrest, hhead]

lemma specSumStrengthWeight_eq (L : List (Option Sig × ℚ)) :
    specSumStrengthWeight L = slotsTS L := rfl

lemma specSumTwiceWeight_eq (L : List (Option Sig × ℚ)) :
    specSumTwiceWeight L = slotsMP L := rfl

lemma slotsMP_eq_two_specSumWeight (L : List (Option Sig × ℚ)) :
    slotsMP L = 2 * specSumWeight L := by
  induction L with
  | nil => simp [slotsMP_nil, specSumWeight]
  | cons p L ih =>
    have hhead : slotMP p = 2 * specSlotW p := by
      cases hp : p.1 <;> simp [slotMP, specSlotW, hp]
    simp only [slotsMP_cons, specSumWeight, List.map_cons, List.sum_cons] at ih ⊢
    have : (List.map specSlotW L).sum = specSumWeight L := rfl
    rw [hhead, ih]
    ring

lemma tech_weights_nonneg (s : TechSignals) : ∀ p ∈ s.slots, 0 ≤ p.2 := by
  intro p hp
  simp only [TechSignals.slots, List.mem_cons, List.not_mem_nil, or_false] at hp
  rcases hp with rfl | rfl | rfl | rfl | rfl | rfl | rfl <;> norm_num

lemma fund_weights_nonneg (s : FundSignals) : ∀ p ∈ s.slots, 0 ≤ p.2 := by
  intro p hp
  simp only [FundSignals.slots, List.mem_cons, List.not_mem_nil, or_false] at hp
  rcases hp with rfl | rfl | rfl | rfl | rfl | rfl | rfl | rfl | rfl <;> norm_num

lemma calculate_technical_score_bound (s : TechSignals) (hs : slotsBounded s.slots) :
    0 ≤ calculate_technical_score s ∧ calculate_technical_score s ≤ 100 := by
  obtain ⟨h0, h1, h2⟩ := slots_bound s.slots (tech_weights_nonneg s) hs
  simp only [calculate_technical_score]
  split_ifs with h
  · have hden : (0 : ℚ) < 2 * slotsMP s.slots := by linarith
    have hration : (slotsTS s.slots + slotsMP s.slots) / (2 * slotsMP s.slots) ≤ 1 := by
      rw [div_le_one hden]
      linarith
    have hratio0 : (0 : ℚ) ≤ (slotsTS s.slots + slotsMP s.slots) / (2 * slotsMP s.slots) :=
      div_nonneg (by linarith) (by linarith)
    exact ⟨round2_nonneg _ (by nlinarith), round2_le_100 _ (by nlinarith)⟩
  · rw [round2_fifty]
    norm_num

lemma calculate_fundamental_score_bound (s : FundSignals) (hs : slotsBounded s.slots) :
    0 ≤ calculate_fundamental_score s ∧ calculate_fundamental_score s ≤ 100 := by
  obtain ⟨h0, h1, h2⟩ := slots_bound s.slots (fund_weights_nonneg s) hs
  simp only [calculate_fundamental_score]
  split_ifs with hemp h
  · norm_num
  · have hden : (0 : ℚ) < 2 * slotsMP s.slots := by linarith
    have hration : (slotsTS s.slots + slotsMP s.slots) / (2 * slotsMP s.slots) ≤ 1 := by
      rw [div_le_one hden]
      linarith
    have hratio0 : (0 : ℚ) ≤ (slotsTS s.slots + slotsMP s.slots) / (2 * slotsMP s.slots) :=
      div_nonneg (by linarith) (by linarith)
    exact ⟨round2_nonneg _ (by nlinarith), round2_le_100 _ (by nlinarith)⟩
  · rw [round2_fifty]
    norm_num

/-! ### Claim C1 -/

/-- Claim C1, amended: the technical score equals the weighted rescale
((sum of strength times weight + sum of 2 times weight) divided by
(2 times the sum of 2 times weight)) times 100, rounded to two decimal
places, using the fixed weights; the rescale maps an all minus-two
outcome to exactly 0 and an all plus-two outcome to exactly 100. -/
theorem C1_technical_score_formula :
    (∀ s : TechSignals, 0 < specSumWeight s.slots →
      calculate_technical_score s =
        round2 ((specSumStrengthWeight s.slots + specSumTwiceWeight s.slots) /
          (2 * specSumTwiceWeight s.slots) * 100))
    ∧ (∀ s : TechSignals, 0 < specSumWeight s.slots →
        (∀ p ∈ s.slots, ∀ g, p.1 = some g → g.strength = -2) →
        calculate_technical_score s = 0)
    ∧ (∀ s : TechSignals, 0 < specSumWeight s.slots →
        (∀ p ∈ s.slots, ∀ g, p.1 = some g → g.strength = 2) →
        calculate_technical_score s = 100) := by
  refine ⟨?_, ?_, ?_⟩
  · intro s hw
    have hmp : slotsMP s.slots = 2 * specSumWeight s.slots := slotsMP_eq_two_specSumWeight _
    have hpos : 0 < slotsMP s.slots := by rw [hmp]; linarith
    simp only [calculate_technical_score, specSumStrengthWeight_eq, specSumTwiceWeight_eq]
    rw [if_pos hpos]
  · intro s hw hneg
    have hmp : slotsMP s.slots = 2 * specSumWeight s.slots := slotsMP_eq_two_specSumWeight _
    have hpos : 0 < slotsMP s.slots := by rw [hmp]; linarith
    have hts := slotsTS_all_neg2 s.slots hneg
    simp only [calculate_technical_score]
    rw [if_pos hpos, hts]
    have hzero : (-(slotsMP s.slots) + slotsMP s.slots) / (2 * slotsMP s.slots) * 100 = 0 := by
      rw [neg_add_cancel, zero_div, zero_mul]
    rw [hzero, round2_zero]
  · intro s hw hpos2
    have hmp : slotsMP s.slots = 2 * specSumWeight s.slots := slotsMP_eq_two_specSumWeight _
    have hpos : 0 < slotsMP s.slots := by rw [hmp]; linarith
    have hts := slotsTS_all_pos2 s.slots hpos2
    simp only [calculate_technical_score]
    rw [if_pos hpos, hts]
    have hone : (slotsMP s.slots + slotsMP s.slots) / (2 * slotsMP s.slots) * 100 = 100 := by
      rw [div_mul_eq_mul_div, div_eq_iff (by linarith)]
      ring
    rw [hone, round2_hundred]

/-- Claim C1 counterexample: for the signal set with RSI strength 2 and
Bollinger strength 1, the code's score is 89.29 while the spec sentence's
literal formula gives 1250/7 (about 178.57) and even the unrounded code
normalization gives 625/7 (about 89.2857), so the claimed equality fails
both on the denominator and on the rounding. -/
theorem C1_counterexample :
    calculate_technical_score s1ex = 8929/100 ∧
    spec_score_formula s1ex = 1250/7 ∧
    (slotsTS s1ex.slots + slotsMP s1ex.slots) / (2 * slotsMP s1ex.slots) * 100 = 625/7 ∧
    calculate_technical_score s1ex ≠ spec_score_formula s1ex ∧
    calculate_technical_score s1ex ≠
      (slotsTS s1ex.slots + slotsMP s1ex.slots) / (2 * slotsMP s1ex.slots) * 100 := by
  have hts : slotsTS s1ex.slots = 11/2 := by
    norm_num [s1ex, TechSignals.slots, slotsTS, slotTS]
  have hmp : slotsMP s1ex.slots = 7 := by
    norm_num [s1ex, TechSignals.slots, slotsMP, slotMP]
  have hssw : specSumStrengthWeight s1ex.slots = 11/2 := by
    rw [specSumStrengthWeight_eq, hts]
  have hs2w : specSumTwiceWeight s1ex.slots = 7 := by
    rw [specSumTwiceWeight_eq, hmp]
  have hsw : specSumWeight s1ex.slots = 7/2 := by
    have := slotsMP_eq_two_specSumWeight s1ex.slots
    rw [hmp] at this
    linarith
  have hscore : calculate_technical_score s1ex = 8929/100 := by
    simp only [calculate_technical_score, hts, hmp]
    rw [if_pos (by norm_num)]
    have harg : (11/2 + 7 : ℚ) / (2 * 7) * 100 = 625/7 := by norm_num
    rw [harg, round2_c1]
  have hspec : spec_score_formula s1ex = 1250/7 := by
    simp only [spec_score_formula, hssw, hs2w, hsw]
    norm_num
  refine ⟨hscore, hspec, ?_, ?_, ?_⟩
  · rw [hts, hmp]
    norm_num
  · rw [hscore, hspec]
    norm_num
  · rw [hscore, hts, hmp]
    norm_num

/-- Claim C1 witness: the amended formula evaluated at the counterexample
signal set, and the endpoint mappings at concrete all minus-two and all
plus-two signal sets. -/
theorem C1_witness :
    calculate_technical_score s1ex =
      round2 ((specSumStrengthWeight s1ex.slots + specSumTwiceWeight s1ex.slots) /
        (2 * specSumTwiceWeight s1ex.slots) * 100) ∧
    calculate_technical_score s1neg = 0 ∧
    calculate_technical_score s1pos = 100 := by
  refine ⟨C1_technical_score_formula.1 s1ex ?_,
    C1_technical_score_formula.2.1 s1neg ?_ ?_,
    C1_technical_score_formula.2.2 s1pos ?_ ?_⟩
  · norm_num [s1ex, TechSignals.slots, specSumWeight, specSlotW]
  · norm_num [s1neg, TechSignals.slots, specSumWeight, specSlotW]
  · intro p hp g hg
    simp only [s1neg, TechSignals.slots, List.mem_cons, List.not_mem_nil, or_false] at hp
    rcases hp with rfl | rfl | rfl | rfl | rfl | rfl | rfl
    · simp at hg
      subst hg
      rfl
    · simp [MacdSig.toSig] at hg
      subst hg
      rfl
    · exact absurd hg (by simp)
    · exact absurd hg (by simp)
    · exact absurd hg (by simp)
    · exact absurd hg (by simp)
    · exact absurd hg (by simp)
  · norm_num [s1pos, TechSignals.slots, specSumWeight, specSlotW]
  · intro p hp g hg
    simp only [s1pos, TechSignals.slots, List.mem_cons, List.not_mem_nil, or_false] at hp
    rcases hp with rfl | rfl | rfl | rfl | rfl | rfl | rfl
    · simp at hg
      subst hg
      rfl
    · exact absurd hg (by simp)
    · exact absurd hg (by simp)
    · exact absurd hg (by simp)
    · exact absurd hg (by simp)
    · exact absurd hg (by simp)
    · exact absurd hg (by simp)

/-! ### Claim C3 -/

/-- Claim C3, amended: the stored overall score equals
technical_score × technical_weight + fundamental_score × fundamental_weight
rounded to two decimal places, and the recommendation is derived from the
unrounded blend; in particular, for technical 70 and fundamental 50 with
the default 0.6/0.4 weights, the overall score is 62.00 and the resulting
recommendation is HOLD. -/
theorem C3_overall_score :
    (∀ (sym : String) (t f : ℚ),
      (score_stock_core sym t f).overall_score =
        round2 (t * TECHNICAL_WEIGHT + f * FUNDAMENTAL_WEIGHT) ∧
      (score_stock_core sym t f).recommendation =
        generate_recommendation (t * TECHNICAL_WEIGHT + f * FUNDAMENTAL_WEIGHT))
    ∧ (score_stock_core "X" 70 50).overall_score = 62
    ∧ (score_stock_core "X" 70 50).recommendation = "HOLD" := by
  refine ⟨fun sym t f => ⟨rfl, rfl⟩, ?_, ?_⟩
  · show round2 (70 * TECHNICAL_WEIGHT + 50 * FUNDAMENTAL_WEIGHT) = 62
    have harg : (70 : ℚ) * TECHNICAL_WEIGHT + 50 * FUNDAMENTAL_WEIGHT = 62 := by
      norm_num [TECHNICAL_WEIGHT, FUNDAMENTAL_WEIGHT]
    rw [harg, round2_sixty_two]
  · show generate_recommendation (70 * TECHNICAL_WEIGHT + 50 * FUNDAMENTAL_WEIGHT) = "HOLD"
    have harg : (70 : ℚ) * TECHNICAL_WEIGHT + 50 * FUNDAMENTAL_WEIGHT = 62 := by
      norm_num [TECHNICAL_WEIGHT, FUNDAMENTAL_WEIGHT]
    rw [harg, generate_recommendation]
    norm_num

/-- Claim C3 counterexample: at technical 70 and fundamental 50 the blend
is 62, which the recommendation bands classify as HOLD, not the claimed
BUY (BUY requires at least 65). -/
theorem C3_counterexample :
    (score_stock_core "X" 70 50).overall_score = 62 ∧
    (score_stock_core "X" 70 50).recommendation = "HOLD" ∧
    (score_stock_core "X" 70 50).recommendation ≠ "BUY" := by
  have h62 : (70 : ℚ) * TECHNICAL_WEIGHT + 50 * FUNDAMENTAL_WEIGHT = 62 := by
    norm_num [TECHNICAL_WEIGHT, FUNDAMENTAL_WEIGHT]
  refine ⟨?_, ?_, ?_⟩
  · show round2 (70 * TECHNICAL_WEIGHT + 50 * FUNDAMENTAL_WEIGHT) = 62
    rw [h62, round2_sixty_two]
  · show generate_recommendation (70 * TECHNICAL_WEIGHT + 50 * FUNDAMENTAL_WEIGHT) = "HOLD"
    rw [h62, generate_recommendation]
    norm_num
  · show generate_recommendation (70 * TECHNICAL_WEIGHT + 50 * FUNDAMENTAL_WEIGHT) ≠ "BUY"
    rw [h62, generate_recommendation]
    norm_num
    decide

/-! ### Claim C4 -/

/-- Claim C4: the recommendation bands have inclusive lower bounds:
STRONG BUY iff the score is at least 80, BUY iff in [65, 80), HOLD iff in
[45, 65), SELL iff in [30, 45), STRONG SELL iff below 30; a score of
exactly 80 yields STRONG BUY and 79.99 yields BUY. -/
theorem C4_recommendation_bands :
    (∀ s : ℚ,
      (generate_recommendation s = "STRONG BUY" ↔ 80 ≤ s)
      ∧ (generate_recommendation s = "BUY" ↔ 65 ≤ s ∧ s < 80)
      ∧ (generate_recommendation s = "HOLD" ↔ 45 ≤ s ∧ s < 65)
      ∧ (generate_recommendation s = "SELL" ↔ 30 ≤ s ∧ s < 45)
      ∧ (generate_recommendation s = "STRONG SELL" ↔ s < 30))
    ∧ generate_recommendation 80 = "STRONG BUY"
    ∧ generate_recommendation (7999/100) = "BUY" := by
  refine ⟨?_, ?_, ?_⟩
  · intro s
    rw [generate_recommendation]
    split_ifs with h1 h2 h3 h4 <;>
      refine ⟨?_, ?_, ?_, ?_, ?_⟩ <;>
      constructor <;>
      intro h <;>
      first
      | rfl
      | constructor <;> linarith
      | linarith
      | exact absurd h (by decide)
      | (exfalso; rcases h with ⟨ha, hb⟩; linarith)
      | (exfalso; linarith)
  · rw [generate_recommendation]
    norm_num
  · rw [generate_recommendation]
    norm_num

/-! ### Claim C2 -/

/-- Claim C2: every signal produced by the technical or the fundamental
classifier has strength in [-2, 2], every technical and fundamental
category score lies in [0, 100], and a category score is exactly 50 when
no signals contributed. -/
theorem C2_invariants :
    (∀ (df : List Row) (res : TResult), generate_technical_signals df = .ok res →
        slotsBounded res.signals.slots ∧ 0 ≤ res.score ∧ res.score ≤ 100)
    ∧ (∀ d : FData,
        slotsBounded (analyze_fundamentals d).signals.slots ∧
        0 ≤ (analyze_fundamentals d).score ∧ (analyze_fundamentals d).score ≤ 100)
    ∧ (∀ s : TechSignals, s.rsi_signal = none → s.macd_signal = none → s.ma_signal = none →
        s.bb_signal = none → s.volume_signal = none → s.trend_signal = none →
        s.stoch_signal = none → calculate_technical_score s = 50)
    ∧ (∀ fs : FundSignals, fs.isEmpty = true → calculate_fundamental_score fs = 50) := by
  refine ⟨?_, ?_, ?_, ?_⟩
  · intro df res h
    simp only [generate_technical_signals] at h
    split at h
    · exact absurd h (by simp)
    · rename_i latest hlast
      split at h
      · exact absurd h (by simp)
      · rename_i rsiVal hrsi
        split at h
        · exact absurd h (by simp)
        · rename_i maSig hma
          simp only [Except.ok.injEq] at h
          subst h
          have hbound : slotsBounded (TechSignals.mk (some (analyze_rsi rsiVal))
              (some (analyze_macd latest
                (if 1 < df.length then (df.get? (df.length - 2)).getD latest else latest)))
              (some maSig) (some (analyze_bollinger_bands latest))
              (some (analyze_volume latest)) (some (analyze_trend df 20))
              (if latest.stoch_k.isSome then some (analyze_stochastic latest) else none)).slots := by
            intro p hp g hg
            simp only [TechSignals.slots, List.mem_cons, List.not_mem_nil, or_false] at hp
            rcases hp with rfl | rfl | rfl | rfl | rfl | rfl | rfl
            · simp at hg
              subst hg
              exact analyze_rsi_bound rsiVal
            · simp only [Option.map_some'] at hg
              simp at hg
              subst hg
              exact analyze_macd_bound latest _
            · simp at hg
              subst hg
              exact analyze_moving_averages_bound latest maSig hma
            · simp at hg
              subst hg
              exact analyze_bollinger_bands_bound latest
            · simp at hg
              subst hg
              exact analyze_volume_bound latest
            · simp at hg
              subst hg
              exact analyze_trend_bound df 20
            · split_ifs at hg with hk
              simp at hg
              subst hg
              exact analyze_stochastic_bound latest
          exact ⟨hbound, (calculate_technical_score_bound _ hbound).1,
            (calculate_technical_score_bound _ hbound).2⟩
  · intro d
    rw [analyze_fundamentals]
    split_ifs with hemp
    · refine ⟨?_, by norm_num, by norm_num⟩
      intro p hp g hg
      simp only [emptyFundSignals, FundSignals.slots, List.mem_cons, List.not_mem_nil,
        or_false] at hp
      rcases hp with rfl | rfl | rfl | rfl | rfl | rfl | rfl | rfl | rfl <;>
        exact absurd hg (by simp)
    · have hbound : slotsBounded (FundSignals.mk (d.pe_ratio.map analyze_pe_ratio)
          (d.profit_margin.map analyze_profit_margin)
          (d.debt_to_equity.map analyze_debt_to_equity)
          (d.revenue_growth.map (fun g => analyze_growth_metric g (3/20) (1/20)))
          (d.return_on_equity.map (fun v => analyze_profitability_metric v (3/20) (2/25)))
          (d.return_on_assets.map (fun v => analyze_profitability_metric v (2/25) (1/25)))
          (d.earnings_growth.map (fun g => analyze_growth_metric g (3/20) (1/20)))
          (d.current_ratio.map analyze_current_ratio)
          (d.operating_margin.map (fun v => analyze_profitability_metric v (3/20) (2/25)))).slots := by
        intro p hp g hg
        simp only [FundSignals.slots, List.mem_cons, List.not_mem_nil, or_false] at hp
        rcases hp with rfl | rfl | rfl | rfl | rfl | rfl | rfl | rfl | rfl
        · rcases hd : d.pe_ratio with _ | v
          · rw [hd] at hg
            exact absurd hg (by simp)
          · rw [hd] at hg
            simp at hg
            subst hg
            exact analyze_pe_ratio_bound v
        · rcases hd : d.profit_margin with _ | v
          · rw [hd] at hg
            exact absurd hg (by simp)
          · rw [hd] at hg
            simp at hg
            subst hg
            exact analyze_profit_margin_bound v
        · rcases hd : d.debt_to_equity with _ | v
          · rw [hd] at hg
            exact absurd hg (by simp)
          · rw [hd] at hg
            simp at hg
            subst hg
            exact analyze_debt_to_equity_bound v
        · rcases hd : d.revenue_growth with _ | v
          · rw [hd] at hg
            exact absurd hg (by simp)
          · rw [hd] at hg
            simp at hg
            subst hg
            exact analyze_growth_metric_bound v _ _
        · rcases hd : d.return_on_equity with _ | v
          · rw [hd] at hg
            exact absurd hg (by simp)
          · rw [hd] at hg
            simp at hg
            subst hg
            exact analyze_profitability_metric_bound v _ _
        · rcases hd : d.return_on_assets with _ | v
          · rw [hd] at hg
            exact absurd hg (by simp)
          · rw [hd] at hg
            simp at hg
            subst hg
            exact analyze_profitability_metric_bound v _ _
        · rcases hd : d.earnings_growth with _ | v
          · rw [hd] at hg
            exact absurd hg (by simp)
          · rw [hd] at hg
            simp at hg
            subst hg
            exact analyze_growth_metric_bound v _ _
        · rcases hd : d.current_ratio with _ | v
          · rw [hd] at hg
            exact absurd hg (by simp)
          · rw [hd] at hg
            simp at hg
            subst hg
            exact analyze_current_ratio_bound v
        · rcases hd : d.operating_margin with _ | v
          · rw [hd] at hg
            exact absurd hg (by simp)
          · rw [hd] at hg
            simp at hg
            subst hg
            exact analyze_profitability_metric_bound v _ _
      exact ⟨hbound, (calculate_fundamental_score_bound _ hbound).1,
        (calculate_fundamental_score_bound _ hbound).2⟩
  · intro s h1 h2 h3 h4 h5 h6 h7
    have hmp : slotsMP s.slots = 0 := by
      simp [TechSignals.slots, slotsMP, slotMP, h1, h2, h3, h4, h5, h6, h7]
    simp only [calculate_technical_score, hmp]
    rw [if_neg (by norm_num), round2_fifty]
  · intro fs h
    simp only [calculate_fundamental_score]
    rw [if_pos h]

lemma score_sigW : calculate_technical_score sigW = 50 := by
  have hts : slotsTS sigW.slots = 0 := by
    norm_num [sigW, TechSignals.slots, slotsTS, slotTS, MacdSig.toSig]
  have hmp : slotsMP sigW.slots = 24 := by
    norm_num [sigW, TechSignals.slots, slotsMP, slotMP]
  simp only [calculate_technical_score, hts, hmp]
  rw [if_pos (by norm_num)]
  have harg : ((0 : ℚ) + 24) / (2 * 24) * 100 = 50 := by norm_num
  rw [harg, round2_fifty]

lemma gen_rowW : generate_technical_signals [rowW] = .ok resW := by
  have hrsi : analyze_rsi (some 50) = ⟨Dir.neutral, 0⟩ := by
    simp only [analyze_rsi, RSI_OVERSOLD, RSI_OVERBOUGHT]
    norm_num
  have hstep : generate_technical_signals [rowW] =
      .ok ⟨calculate_technical_score ⟨some (analyze_rsi (some 50)),
        some ⟨Dir.neutral, 0, none⟩, some ⟨Dir.neutral, 0⟩, some ⟨Dir.neutral, 0⟩,
        some ⟨Dir.neutral, 0⟩, some ⟨Dir.neutral, 0⟩, some ⟨Dir.neutral, 0⟩⟩,
        ⟨some (analyze_rsi (some 50)), some ⟨Dir.neutral, 0, none⟩, some ⟨Dir.neutral, 0⟩,
        some ⟨Dir.neutral, 0⟩, some ⟨Dir.neutral, 0⟩, some ⟨Dir.neutral, 0⟩,
        some ⟨Dir.neutral, 0⟩⟩, 100⟩ := rfl
  rw [hstep, hrsi]
  show Except.ok ⟨calculate_technical_score sigW, sigW, 100⟩ = .ok resW
  rw [score_sigW]
  rfl

/-- Claim C2 witness: the invariants evaluated on a concrete one-row
series with every sub-signal neutral, a concrete fundamental map, the
all-absent technical signal set and the empty fundamental signal map. -/
theorem C2_witness :
    (slotsBounded resW.signals.slots ∧ 0 ≤ resW.score ∧ resW.score ≤ 100)
    ∧ (slotsBounded (analyze_fundamentals fdW).signals.slots ∧
        0 ≤ (analyze_fundamentals fdW).score ∧ (analyze_fundamentals fdW).score ≤ 100)
    ∧ calculate_technical_score ⟨none, none, none, none, none, none, none⟩ = 50
    ∧ calculate_fundamental_score emptyFundSignals = 50 :=
  ⟨C2_invariants.1 [rowW] resW gen_rowW,
   C2_invariants.2.1 fdW,
   C2_invariants.2.2.1 ⟨none, none, none, none, none, none, none⟩ rfl rfl rfl rfl rfl rfl rfl,
   C2_invariants.2.2.2 emptyFundSignals rfl⟩

/-! ### Claim C5 -/

/-- Claim C5, amended: an absent sub-indicator value yields a neutral
strength-0 signal that still contributes its weight to the denominator
(only the stochastic sub-signal is excluded outright, and only when its
column does not exist), so the absence pulls the unrounded score weakly
toward 50 relative to the score of the remaining sub-signals alone,
rather than leaving it unchanged. -/
theorem C5_absent_subsignal :
    analyze_rsi none = ⟨Dir.neutral, 0⟩
    ∧ (∀ (df : List Row) (res : TResult) (latest : Row),
        generate_technical_signals df = .ok res → df.getLast? = some latest →
        latest.stoch_k = none → res.signals.stoch_signal = none)
    ∧ (∀ s : TechSignals, s.rsi_signal = some ⟨Dir.neutral, 0⟩ →
        0 < slotsMP (TechSignals.slots { s with rsi_signal := none }) →
        |pre_score s - 50| ≤ |pre_score { s with rsi_signal := none } - 50|) := by
  refine ⟨rfl, ?_, ?_⟩
  · intro df res latest h hlast hk
    simp only [generate_technical_signals] at h
    split at h
    · exact absurd h (by simp)
    · rename_i lat hlat
      rw [hlast] at hlat
      simp only [Option.some.injEq] at hlat
      subst hlat
      split at h
      · exact absurd h (by simp)
      · split at h
        · exact absurd h (by simp)
        · simp only [Except.ok.injEq] at h
          subst h
          simp [hk]
  · intro s hrsi hmp'
    have hts : slotsTS s.slots =
        slotsTS (TechSignals.slots { s with rsi_signal := none }) := by
      norm_num [TechSignals.slots, slotsTS, slotTS, hrsi]
    have hmp : slotsMP s.slots =
        4 + slotsMP (TechSignals.slots { s with rsi_signal := none }) := by
      norm_num [TechSignals.slots, slotsMP, slotMP, hrsi]
    have hB : (0 : ℚ) < slotsMP (TechSignals.slots { s with rsi_signal := none }) := hmp'
    have hB4 : (0 : ℚ) < slotsMP (TechSignals.slots { s with rsi_signal := none }) + 4 := by
      linarith
    have h1 : pre_score s - 50 =
        50 * slotsTS (TechSignals.slots { s with rsi_signal := none }) /
          (slotsMP (TechSignals.slots { s with rsi_signal := none }) + 4) := by
      rw [pre_score, hts, hmp]
      field_simp
      ring
    have h2 : pre_score { s with rsi_signal := none } - 50 =
        50 * slotsTS (TechSignals.slots { s with rsi_signal := none }) /
          slotsMP (TechSignals.slots { s with rsi_signal := none }) := by
      rw [pre_score]
      field_simp
      ring
    rw [show |pre_score s - 50| = |pre_score s - 50| from rfl]
    rw [h1, h2, abs_div, abs_div, abs_of_pos hB4, abs_of_pos hB]
    gcongr
    linarith

lemma macd_row5c : analyze_macd row5c row5c = ⟨Dir.bullish, 1, none⟩ := by
  simp only [analyze_macd, row5c, colGet, Option.getD, optLE, optGE]
  norm_num

lemma score_sig5c : calculate_technical_score sig5c = 1392/25 := by
  have hts : slotsTS sig5c.slots = 5/2 := by
    norm_num [sig5c, TechSignals.slots, slotsTS, slotTS, MacdSig.toSig]
  have hmp : slotsMP sig5c.slots = 22 := by
    norm_num [sig5c, TechSignals.slots, slotsMP, slotMP]
  simp only [calculate_technical_score, hts, hmp]
  rw [if_pos (by norm_num)]
  have harg : ((5 : ℚ)/2 + 22) / (2 * 22) * 100 = 2450/44 := by norm_num
  rw [harg, round2_c5]

lemma gen_row5c : generate_technical_signals [row5c] = .ok res5c := by
  have hstep : generate_technical_signals [row5c] =
      .ok ⟨calculate_technical_score ⟨some ⟨Dir.neutral, 0⟩,
        some (analyze_macd row5c row5c), some ⟨Dir.neutral, 0⟩, some ⟨Dir.neutral, 0⟩,
        some ⟨Dir.neutral, 0⟩, some ⟨Dir.neutral, 0⟩, none⟩,
        ⟨some ⟨Dir.neutral, 0⟩, some (analyze_macd row5c row5c), some ⟨Dir.neutral, 0⟩,
        some ⟨Dir.neutral, 0⟩, some ⟨Dir.neutral, 0⟩, some ⟨Dir.neutral, 0⟩, none⟩,
        100⟩ := rfl
  rw [hstep, macd_row5c]
  show Except.ok ⟨calculate_technical_score sig5c, sig5c, 100⟩ = .ok res5c
  rw [score_sig5c]
  rfl

lemma score_sOnlyMacd : calculate_technical_score sOnlyMacd = 75 := by
  have hts : slotsTS sOnlyMacd.slots = 5/2 := by
    norm_num [sOnlyMacd, TechSignals.slots, slotsTS, slotTS, MacdSig.toSig]
  have hmp : slotsMP sOnlyMacd.slots = 5 := by
    norm_num [sOnlyMacd, TechSignals.slots, slotsMP, slotMP]
  simp only [calculate_technical_score, hts, hmp]
  rw [if_pos (by norm_num)]
  have harg : ((5 : ℚ)/2 + 5) / (2 * 5) * 100 = 75 := by norm_num
  rw [harg, round2_seventy_five]

/-- Claim C5 counterexample: in a one-row series whose MACD columns hold
values while every other sub-indicator value is absent, the classifier
scores 55.68; the score computed from the remaining (MACD) sub-signal
alone is 75, so absent sub-signals are not excluded from the denominator
and absence does change the score. -/
theorem C5_counterexample :
    generate_technical_signals [row5c] = .ok res5c
    ∧ res5c.score = 1392/25
    ∧ calculate_technical_score sOnlyMacd = 75
    ∧ res5c.score ≠ calculate_technical_score sOnlyMacd := by
  refine ⟨gen_row5c, rfl, score_sOnlyMacd, ?_⟩
  rw [score_sOnlyMacd]
  show (1392 : ℚ)/25 ≠ 75
  norm_num

lemma score_sig5b : calculate_technical_score sig5b = 50 := by
  have hts : slotsTS sig5b.slots = 0 := by
    norm_num [sig5b, TechSignals.slots, slotsTS, slotTS, MacdSig.toSig]
  have hmp : slotsMP sig5b.slots = 22 := by
    norm_num [sig5b, TechSignals.slots, slotsMP, slotMP]
  simp only [calculate_technical_score, hts, hmp]
  rw [if_pos (by norm_num)]
  have harg : ((0 : ℚ) + 22) / (2 * 22) * 100 = 50 := by norm_num
  rw [harg, round2_fifty]

lemma gen_row5b : generate_technical_signals [row5b] = .ok res5b := by
  have hrsi : analyze_rsi (some 50) = ⟨Dir.neutral, 0⟩ := by
    simp only [analyze_rsi, RSI_OVERSOLD, RSI_OVERBOUGHT]
    norm_num
  have hstep : generate_technical_signals [row5b] =
      .ok ⟨calculate_technical_score ⟨some (analyze_rsi (some 50)),
        some ⟨Dir.neutral, 0, none⟩, some ⟨Dir.neutral, 0⟩, some ⟨Dir.neutral, 0⟩,
        some ⟨Dir.neutral, 0⟩, some ⟨Dir.neutral, 0⟩, none⟩,
        ⟨some (analyze_rsi (some 50)), some ⟨Dir.neutral, 0, none⟩, some ⟨Dir.neutral, 0⟩,
        some ⟨Dir.neutral, 0⟩, some ⟨Dir.neutral, 0⟩, some ⟨Dir.neutral, 0⟩, none⟩,
        100⟩ := rfl
  rw [hstep, hrsi]
  show Except.ok ⟨calculate_technical_score sig5b, sig5b, 100⟩ = .ok res5b
  rw [score_sig5b]
  rfl

/-- Claim C5 witness: the amended statement evaluated on concrete inputs:
a missing RSI value yields the neutral contributing signal, a one-row
series without stochastic columns omits the stochastic sub-signal, and a
neutral RSI entry next to a strong MACD entry pulls the unrounded score
toward 50. -/
theorem C5_witness :
    analyze_rsi none = ⟨Dir.neutral, 0⟩
    ∧ res5b.signals.stoch_signal = none
    ∧ |pre_score s5w - 50| ≤ |pre_score { s5w with rsi_signal := none } - 50| := by
  refine ⟨C5_absent_subsignal.1,
    C5_absent_subsignal.2.1 [row5b] res5b row5b gen_row5b rfl rfl,
    C5_absent_subsignal.2.2 s5w rfl ?_⟩
  norm_num [s5w, TechSignals.slots, slotsMP, slotMP]

/-! ### Claim C6 -/

/-- Claim C6: with MACD and signal values present in both rows, the MACD
classifier reports a bullish crossover with strength 2 iff previous MACD
is at most previous signal and latest MACD exceeds latest signal, a
bearish crossover with strength -2 under the mirrored condition, strength
1 iff latest MACD exceeds latest signal without a bullish crossover, and
strength -1 otherwise. -/
theorem C6_macd_crossover :
    ∀ (latest previous : Row) (m s pm ps : ℚ),
      latest.macd = some (some m) → latest.macd_signal = some (some s) →
      previous.macd = some (some pm) → previous.macd_signal = some (some ps) →
      (analyze_macd latest previous = ⟨Dir.bullish, 2, some Dir.bullish⟩ ↔ pm ≤ ps ∧ s < m)
      ∧ (analyze_macd latest previous = ⟨Dir.bearish, -2, some Dir.bearish⟩ ↔ ps ≤ pm ∧ m < s)
      ∧ ((analyze_macd latest previous).strength = 1 ↔ s < m ∧ ¬(pm ≤ ps))
      ∧ ((analyze_macd latest previous).strength = -1 ↔ ¬(s < m) ∧ ¬(ps ≤ pm ∧ m < s)) := by
  intro latest previous m s pm ps hm hs hpm hps
  have hred : analyze_macd latest previous =
      (if (decide (pm ≤ ps) && decide (s < m)) = true then
        (⟨Dir.bullish, 2, some Dir.bullish⟩ : MacdSig)
      else if (decide (ps ≤ pm) && decide (m < s)) = true then
        ⟨Dir.bearish, -2, some Dir.bearish⟩
      else if s < m then ⟨Dir.bullish, 1, none⟩
      else ⟨Dir.bearish, -1, none⟩) := by
    simp only [analyze_macd, hm, hs, hpm, hps, colGet, Option.getD, optLE, optGE]
  rw [hred]
  simp only [Bool.and_eq_true, decide_eq_true_eq]
  by_cases h1 : pm ≤ ps <;> by_cases h2 : s < m <;> by_cases h3 : ps ≤ pm <;>
    by_cases h4 : m < s <;>
    simp [h1, h2, h3, h4] <;>
    first
    | linarith
    | tauto
    | (constructor <;> intro hx <;> tauto)

/-- Claim C6 witness: previous MACD -0.5 at signal -0.3 and latest MACD
0.2 above signal 0.1 produce a bullish crossover with strength 2. -/
theorem C6_witness :
    analyze_macd latest6 previous6 = ⟨Dir.bullish, 2, some Dir.bullish⟩ :=
  (C6_macd_crossover latest6 previous6 (2/10) (1/10) (-(5/10)) (-(3/10))
    rfl rfl rfl rfl).1.mpr (by norm_num)

/-! ### Claim C7 -/

lemma insertDesc_perm (r : StockScore) (l : List StockScore) :
    (insertDesc r l).Perm (r :: l) := by
  induction l with
  | nil => simp [insertDesc]
  | cons x xs ih =>
    rw [insertDesc]
    split_ifs with h
    · exact List.Perm.refl _
    · exact (List.Perm.cons x ih).trans (List.Perm.swap r x xs)

lemma insertDesc_sorted (r : StockScore) (l : List StockScore) (h : SortedDesc l) :
    SortedDesc (insertDesc r l) := by
  induction l with
  | nil => simp [insertDesc, SortedDesc]
  | cons x xs ih =>
    rw [insertDesc]
    split_ifs with hlt
    · refine List.Pairwise.cons ?_ h
      intro y hy
      rcases List.mem_cons.mp hy with rfl | hy'
      · linarith
      · have hx := (List.pairwise_cons.mp h).1 y hy'
        linarith
    · have hxs := (List.pairwise_cons.mp h).2
      refine List.pairwise_cons.mpr ⟨?_, ih hxs⟩
      intro y hy
      have hmem : y ∈ r :: xs := (insertDesc_perm r xs).mem_iff.mp hy
      rcases List.mem_cons.mp hmem with rfl | hy'
      · linarith [not_lt.mp hlt]
      · exact (List.pairwise_cons.mp h).1 y hy'

lemma sortDesc_perm (l : List StockScore) : (sortDesc l).Perm l := by
  induction l with
  | nil => exact List.Perm.refl _
  | cons x xs ih => exact (insertDesc_perm x (sortDesc xs)).trans (List.Perm.cons x ih)

lemma sortDesc_sorted (l : List StockScore) : SortedDesc (sortDesc l) := by
  induction l with
  | nil => simp [sortDesc, SortedDesc]
  | cons x xs ih => exact insertDesc_sorted x (sortDesc xs) ih

/-- Claim C7: batch scoring returns one result per symbol (a permutation
of the per-symbol outcomes, hence the same length), sorted descending by
overall score; a symbol whose scoring call raises yields the HOLD
placeholder with score 50 and the error text attached, and the outcome of
every other symbol is untouched by it. -/
theorem C7_batch :
    ∀ (score_stock : String → Except String StockScore) (symbols : List String),
      (score_portfolio score_stock symbols).Perm (symbols.map (resultFor score_stock))
      ∧ (score_portfolio score_stock symbols).length = symbols.length
      ∧ SortedDesc (score_portfolio score_stock symbols)
      ∧ (∀ sym e, score_stock sym = .error e →
          resultFor score_stock sym = create_error_result sym e
          ∧ (resultFor score_stock sym).recommendation = "HOLD"
          ∧ (resultFor score_stock sym).overall_score = 50
          ∧ (resultFor score_stock sym).error = some e) := by
  intro score_stock symbols
  refine ⟨sortDesc_perm _, ?_, sortDesc_sorted _, ?_⟩
  · rw [score_portfolio, (sortDesc_perm _).length_eq, List.length_map]
  · intro sym e he
    have h1 : resultFor score_stock sym = create_error_result sym e := by
      rw [resultFor, he]
    exact ⟨h1, by rw [h1]; rfl, by rw [h1]; rfl, by rw [h1]; rfl⟩

/-- Claim C7 witness: a three-symbol batch whose middle symbol raises is
sorted, keeps all three results, and flags the failing symbol with the
HOLD placeholder. -/
theorem C7_witness :
    SortedDesc (score_portfolio f7 syms7)
    ∧ (score_portfolio f7 syms7).length = 3
    ∧ resultFor f7 "BBB" = create_error_result "BBB" "boom"
    ∧ (resultFor f7 "BBB").recommendation = "HOLD"
    ∧ (resultFor f7 "BBB").overall_score = 50
    ∧ (resultFor f7 "BBB").error = some "boom" := by
  obtain ⟨hperm, hlen, hsorted, herr⟩ := C7_batch f7 syms7
  obtain ⟨e1, e2, e3, e4⟩ := herr "BBB" "boom" (by rfl)
  exact ⟨hsorted, by rw [hlen]; rfl, e1, e2, e3, e4⟩

/-! ### Claim C8 -/

/-- Claim C8, amended: the indicator pipeline returns an empty input
frame unchanged; a failure thrown while deriving one indicator is caught
(the pipeline itself never raises) but, because all indicators sit in one
try block, it aborts the computation of the subsequent indicators: a
failing RSI call leaves every derived column absent, and a failing MACD
call after a successful RSI call leaves exactly the RSI column
populated. -/
theorem C8_pipeline :
    (∀ (ta : TAlib) (df : DF), df.rows = [] → calculate_all_indicators ta df = df)
    ∧ (∀ (ta : TAlib) (df : DF) (e : String), df.rows ≠ [] →
        ta.rsi (df.rows.map Bar.Close) 14 = .error e →
        calculate_all_indicators ta df = df)
    ∧ (∀ (ta : TAlib) (df : DF) (c : IndCol) (e : String), df.rows ≠ [] →
        ta.rsi (df.rows.map Bar.Close) 14 = .ok c →
        ta.macd (df.rows.map Bar.Close) 12 26 9 = .error e →
        calculate_all_indicators ta df = { df with rsi := some c }) := by
  refine ⟨?_, ?_, ?_⟩
  · intro ta df h
    simp [calculate_all_indicators, h]
  · intro ta df e hne hrsi
    rw [calculate_all_indicators, if_neg (by simp [hne])]
    simp only [calc_rsi, hrsi]
  · intro ta df c e hne hrsi hmacd
    rw [calculate_all_indicators, if_neg (by simp [hne])]
    simp only [calc_rsi, hrsi, calc_macd, hmacd]

/-- Claim C8 counterexample: with an indicator library whose RSI call
raises while its MACD call succeeds, the pipeline returns a frame whose
MACD (and SMA) columns are absent, so the failure of one indicator does
abort the computation of the others. -/
theorem C8_counterexample :
    ta0.macd (df0.rows.map Bar.Close) 12 26 9 = .ok (some ([some 1], [some 1], [some 1]))
    ∧ (calculate_all_indicators ta0 df0).macd = none
    ∧ (calculate_all_indicators ta0 df0).sma_20 = none :=
  ⟨rfl, rfl, rfl⟩

/-- Claim C8 witness: the amended pipeline behavior on the concrete
one-bar frame and failing-RSI library: an emptied frame is returned
unchanged and the RSI failure returns the input frame with no columns
added. -/
theorem C8_witness :
    calculate_all_indicators ta0 { df0 with rows := [] } = { df0 with rows := [] }
    ∧ calculate_all_indicators ta0 df0 = df0 :=
  ⟨C8_pipeline.1 ta0 { df0 with rows := [] } rfl,
   C8_pipeline.2.1 ta0 df0 "rsi boom" (by simp [df0]) rfl⟩

/-! ### Claim C9 -/

/-- Claim C9, amended: feeding a series whose derived indicator columns
were stripped to the technical classifier raises a KeyError on the
missing rsi column instead of returning a neutral result, while feeding
an empty metrics map to the fundamental classifier yields the documented
neutral default: score 50 with no signals, and no error. -/
theorem C9_neutral_defaults :
    (∀ (df : List Row) (latest : Row), df.getLast? = some latest → latest.rsi = none →
        generate_technical_signals df = .error "KeyError: rsi")
    ∧ (∀ d : FData, d.isEmpty = true →
        analyze_fundamentals d = ⟨50, emptyFundSignals⟩) := by
  refine ⟨?_, ?_⟩
  · intro df latest hlast hrsi
    simp only [generate_technical_signals, hlast, hrsi]
  · intro d h
    rw [analyze_fundamentals, if_pos h]

/-- Claim C9 counterexample: a one-row series with every derived column
stripped makes the technical classifier raise a KeyError for the rsi
column, where the claim promised a neutral score-50 result instead of an
error. -/
theorem C9_counterexample :
    generate_technical_signals [strippedRow] = .error "KeyError: rsi" := rfl

/-- Claim C9 witness: the amended statement at the concrete stripped row
and the concrete empty metrics map. -/
theorem C9_witness :
    generate_technical_signals [strippedRow] = .error "KeyError: rsi"
    ∧ analyze_fundamentals fdEmpty = ⟨50, emptyFundSignals⟩ :=
  ⟨C9_neutral_defaults.1 [strippedRow] strippedRow rfl rfl,
   C9_neutral_defaults.2 fdEmpty rfl⟩

/-! ### Claim C10 -/

/-- Claim C10: on a one-row series the previous row coincides with the
latest row, so the MACD classifier can never report a crossover: the
signal recorded by the generator is the classifier applied to the row
twice, its strength is always -1, 0 or 1 and its crossover marker is
never set. -/
theorem C10_single_row_macd :
    (∀ (row : Row) (res : TResult), generate_technical_signals [row] = .ok res →
        res.signals.macd_signal = some (analyze_macd row row))
    ∧ (∀ row : Row,
        ((analyze_macd row row).strength = -1 ∨ (analyze_macd row row).strength = 0 ∨
          (analyze_macd row row).strength = 1)
        ∧ (analyze_macd row row).crossover = none) := by
  constructor
  · intro row res h
    have hstep : generate_technical_signals [row] =
        (match row.rsi with
        | none => .error "KeyError: rsi"
        | some rsiVal =>
          match analyze_moving_averages row with
          | .error e => .error e
          | .ok maSig =>
            .ok ⟨calculate_technical_score ⟨some (analyze_rsi rsiVal),
              some (analyze_macd row row), some maSig, some (analyze_bollinger_bands row),
              some (analyze_volume row), some (analyze_trend [row] 20),
              if row.stoch_k.isSome then some (analyze_stochastic row) else none⟩,
              ⟨some (analyze_rsi rsiVal), some (analyze_macd row row), some maSig,
              some (analyze_bollinger_bands row), some (analyze_volume row),
              some (analyze_trend [row] 20),
              if row.stoch_k.isSome then some (analyze_stochastic row) else none⟩,
              row.Close⟩) := rfl
    rw [hstep] at h
    split at h
    · exact absurd h (by simp)
    · split at h
      · exact absurd h (by simp)
      · simp only [Except.ok.injEq] at h
        subst h
        rfl
  · intro row
    rcases hm : row.macd with _ | vm
    · simp [analyze_macd, colGet, hm]
    · rcases vm with _ | m
      · simp [analyze_macd, colGet, hm]
      · rcases hs : row.macd_signal with _ | vs
        · simp [analyze_macd, colGet, hm, hs]
        · rcases vs with _ | s
          · simp [analyze_macd, colGet, hm, hs]
          · have hred : analyze_macd row row =
                (if (decide (m ≤ s) && decide (s < m)) = true then
                  (⟨Dir.bullish, 2, some Dir.bullish⟩ : MacdSig)
                else if (decide (s ≤ m) && decide (m < s)) = true then
                  ⟨Dir.bearish, -2, some Dir.bearish⟩
                else if s < m then ⟨Dir.bullish, 1, none⟩
                else ⟨Dir.bearish, -1, none⟩) := by
              simp only [analyze_macd, hm, hs, colGet, Option.getD, optLE, optGE]
            rw [hred]
            rcases lt_trichotomy s m with hlt | heqq | hgt
            · have c1 : ¬((decide (m ≤ s) && decide (s < m)) = true) := by
                simp only [Bool.and_eq_true, decide_eq_true_eq, not_and]
                intro hc hc2
                linarith
              have c2 : ¬((decide (s ≤ m) && decide (m < s)) = true) := by
                simp only [Bool.and_eq_true, decide_eq_true_eq, not_and]
                intro hc hc2
                linarith
              rw [if_neg c1, if_neg c2, if_pos hlt]
              exact ⟨Or.inr (Or.inr rfl), rfl⟩
            · have c1 : ¬((decide (m ≤ s) && decide (s < m)) = true) := by
                simp only [Bool.and_eq_true, decide_eq_true_eq, not_and]
                intro hc hc2
                linarith
              have c2 : ¬((decide (s ≤ m) && decide (m < s)) = true) := by
                simp only [Bool.and_eq_true, decide_eq_true_eq, not_and]
                intro hc hc2
                linarith
              rw [if_neg c1, if_neg c2, if_neg (by linarith)]
              exact ⟨Or.inl rfl, rfl⟩
            · have c1 : ¬((decide (m ≤ s) && decide (s < m)) = true) := by
                simp only [Bool.and_eq_true, decide_eq_true_eq, not_and]
                intro hc hc2
                linarith
              have c2 : ¬((decide (s ≤ m) && decide (m < s)) = true) := by
                simp only [Bool.and_eq_true, decide_eq_true_eq, not_and]
                intro hc hc2
                linarith
              rw [if_neg c1, if_neg c2, if_neg (by linarith)]
              exact ⟨Or.inl rfl, rfl⟩

lemma analyze_rsi_fifty : analyze_rsi (some 50) = ⟨Dir.neutral, 0⟩ := by
  simp only [analyze_rsi, RSI_OVERSOLD, RSI_OVERBOUGHT]
  norm_num

lemma macd_rowC10 : analyze_macd rowC10 rowC10 = ⟨Dir.bearish, -1, none⟩ := by
  simp only [analyze_macd, rowC10, colGet, Option.getD, optLE, optGE]
  norm_num

lemma score_sigC10 : calculate_technical_score sigC10 = 4479/100 := by
  have hts : slotsTS sigC10.slots = -5/2 := by
    norm_num [sigC10, TechSignals.slots, slotsTS, slotTS, MacdSig.toSig]
  have hmp : slotsMP sigC10.slots = 24 := by
    norm_num [sigC10, TechSignals.slots, slotsMP, slotMP]
  simp only [calculate_technical_score, hts, hmp]
  rw [if_pos (by norm_num)]
  have harg : ((-5 : ℚ)/2 + 24) / (2 * 24) * 100 = 2150/48 := by norm_num
  rw [harg, round2_c10]

lemma gen_rowC10 : generate_technical_signals [rowC10] = .ok resC10 := by
  have hstep : generate_technical_signals [rowC10] =
      .ok ⟨calculate_technical_score ⟨some (analyze_rsi (some 50)),
        some (analyze_macd rowC10 rowC10), some ⟨Dir.neutral, 0⟩, some ⟨Dir.neutral, 0⟩,
        some ⟨Dir.neutral, 0⟩, some ⟨Dir.neutral, 0⟩, some ⟨Dir.neutral, 0⟩⟩,
        ⟨some (analyze_rsi (some 50)), some (analyze_macd rowC10 rowC10),
        some ⟨Dir.neutral, 0⟩, some ⟨Dir.neutral, 0⟩, some ⟨Dir.neutral, 0⟩,
        some ⟨Dir.neutral, 0⟩, some ⟨Dir.neutral, 0⟩⟩, 100⟩ := rfl
  rw [hstep, analyze_rsi_fifty, macd_rowC10]
  show Except.ok ⟨calculate_technical_score sigC10, sigC10, 100⟩ = .ok resC10
  rw [score_sigC10]
  rfl

/-- Claim C10 witness: on a concrete one-row series with MACD 1 below
signal 2, the generator records the classifier applied to the row twice,
with strength -1 and no crossover. -/
theorem C10_witness :
    resC10.signals.macd_signal = some (analyze_macd rowC10 rowC10)
    ∧ (analyze_macd rowC10 rowC10).crossover = none
    ∧ ((analyze_macd rowC10 rowC10).strength = -1 ∨
        (analyze_macd rowC10 rowC10).strength = 0 ∨
        (analyze_macd rowC10 rowC10).strength = 1) :=
  ⟨C10_single_row_macd.1 rowC10 resC10 gen_rowC10,
   (C10_single_row_macd.2 rowC10).2,
   (C10_single_row_macd.2 rowC10).1⟩
